import Mathlib

/-!
# CGIWICBitmap / CGIWICBitmapLock (Frameworks/include/CGIWICBitmap.h)

A shallow embedding of the two classes of `CGIWICBitmap.h`.

* Machine integers are `Nat` / `Int` with explicit wrap-around: `UINT` is a natural
  number below `2^32`, `INT` an integer in `[-2^31, 2^31)`, `size_t` a natural number
  below `2 ^ sizeBits` for the target at hand.
* Pointers are addresses into explicit stores (`Memory`): a pointer to a `WICRect`
  is an address of the `rects` store, a `BYTE*` an address of the `bytes` store and a
  `std::shared_ptr<IDisplayTexture>` an index into `textures`.  `none` is `nullptr`.
* A call either returns (`Run.done`), has undefined behaviour because it reads or
  writes an object outside its lifetime or bounds (`Run.undefined`), or terminates
  the process (`Run.failFast`, the `FAIL_FAST_IF` of the buffer constructor).
-/

namespace WinObjC

/-! ## Status codes and outcomes -/

/-- The `HRESULT` values that occur in `CGIWICBitmap.h`. -/
inductive HRESULT where
  | S_OK
  | E_POINTER
  | E_NOTIMPL
  | E_INVALIDARG
  | E_UNEXPECTED
  deriving DecidableEq, Repr

/-- The `FAILED(hr)` test of `RETURN_IF_FAILED`. -/
def HRESULT.failed : HRESULT → Bool
  | .S_OK => false
  | _ => true

/-- Outcome of running a piece of the C++ code. -/
inductive Run (α : Type) where
  /-- the call returned -/
  | done (a : α)
  /-- the call reads or writes an object outside its lifetime or bounds -/
  | undefined
  /-- the process was terminated by `FAIL_FAST_IF` -/
  | failFast
  deriving Repr

/-! ## Machine integers -/

/-- Conversion of a signed value to `UINT` (used by the implicit conversions
`INT → UINT` in comparisons and assignments). -/
def toU32 (x : Int) : Nat := (x % 4294967296).toNat

/-- Conversion of a `UINT` to `INT`, as in `WICRect rect = { 0, 0, m_width, m_height }`:
values from `2^31` on wrap to the negative range. -/
def toI32 (n : Nat) : Int :=
  if n % 4294967296 < 2147483648 then ((n % 4294967296 : Nat) : Int)
  else ((n % 4294967296 : Nat) : Int) - 4294967296

/-- The widths that the build target fixes and that the header does not:
`sizeBits` is the width of `size_t`; `mulBits` is the width of the unsigned type in
which `(properties->bitsPerPixel >> 3) * m_width` is evaluated (the declaration of
`__CGImagePixelProperties` is in `CGImageInternal.h`; with an `unsigned int`
field it is 32, with a `size_t` field it is `sizeBits`). -/
structure Target where
  sizeBits : Nat
  mulBits : Nat
  deriving DecidableEq, Repr

/-- A target with at least 32-bit `size_t` and a multiplication at least 32 bits wide
and no wider than `size_t`. -/
def Target.ok (t : Target) : Prop := 32 ≤ t.mulBits ∧ t.mulBits ≤ t.sizeBits

instance (t : Target) : Decidable t.ok := by unfold Target.ok; infer_instance

/-- The 32-bit targets (x86, ARM) with an `unsigned int` bitsPerPixel field. -/
def Target.x86 : Target := ⟨32, 32⟩

/-- A 64-bit target with an `unsigned int` bitsPerPixel field. -/
def Target.x64 : Target := ⟨64, 32⟩

/-- Conversion of a signed value to `size_t`. -/
def toSize (t : Target) (x : Int) : Nat := (x % ((2 ^ t.sizeBits : Nat) : Int)).toNat

/-! ## Data model -/

/-- The `WICRect` of `Wincodec.h`: four `INT` fields. -/
structure WICRect where
  X : Int
  Y : Int
  Width : Int
  Height : Int
  deriving DecidableEq, Repr

/-- Every field of the rectangle is a representable `INT`. -/
def WICRect.wf (r : WICRect) : Prop :=
  (-2147483648 ≤ r.X ∧ r.X < 2147483648) ∧ (-2147483648 ≤ r.Y ∧ r.Y < 2147483648) ∧
  (-2147483648 ≤ r.Width ∧ r.Width < 2147483648) ∧
  (-2147483648 ≤ r.Height ∧ r.Height < 2147483648)

instance (r : WICRect) : Decidable r.wf := by unfold WICRect.wf; infer_instance

/-- A `WICPixelFormatGUID`, as a number. -/
abbrev GUID := Nat

/-- A pointer: `none` is `nullptr`, `some a` an address of the store it points into. -/
abbrev Ptr := Option Nat

/-- Modelled from the spec: the external display texture (`IDisplayTexture.h` is not
part of the sources at hand), "a display-texture resource with `Lock() -> (pointer,
stride)` / `Unlock()` primitives".  The texture is explicit state counting the
invocations of the two primitives; `onLock k` is what the call `Lock(&bpr)` returns
(the data pointer) and stores into `bpr` (an `int`) when `k` calls were made before. -/
structure Texture where
  onLock : Nat → Ptr × Int
  locks : Nat
  unlocks : Nat

/-- The stores the code reads and writes through pointers. -/
structure Memory where
  /-- the `WICRect` objects whose lifetime has begun and not ended, by address -/
  rects : Nat → Option WICRect
  /-- address at which the next automatic `WICRect` of a callee is placed; no object
  of the caller lives there -/
  stackTop : Nat
  /-- the live byte arrays, by address of their first byte -/
  bytes : Nat → Option (List Nat)
  /-- address that the next `new BYTE[n]` returns -/
  heapTop : Nat
  /-- the indeterminate content of a fresh `new BYTE[n]`, byte by byte -/
  junk : Nat → Nat
  /-- the display textures, by the identity that a `shared_ptr` holds -/
  textures : Nat → Texture
  /-- the arrays released by `delete[]`, most recent first -/
  freed : List Nat

/-- Store update at one address. -/
def setAt {α : Type} (f : Nat → α) (a : Nat) (v : α) : Nat → α :=
  fun i => if i = a then v else f i

/-- Modelled from the spec: `IDisplayTexture::Lock(int* stride)`, which is declared
in `IDisplayTexture.h` (not part of the sources at hand): it counts the invocation
and yields the data pointer and the stride of the texture. -/
def Texture.Lock (x : Texture) : (Ptr × Int) × Texture :=
  (x.onLock x.locks, { x with locks := x.locks + 1 })

/-- Modelled from the spec: `IDisplayTexture::Unlock()`, declared in
`IDisplayTexture.h` (not part of the sources at hand): it counts the invocation. -/
def Texture.Unlock (x : Texture) : Texture :=
  { x with unlocks := x.unlocks + 1 }

/-! ## CGIWICBitmapLock -/

/-- The members of `CGIWICBitmapLock`.  `m_locked_rect` is a `const WICRect*`: the
lock keeps the address of the rectangle it was given, not a copy of it. -/
structure CGIWICBitmapLock where
  m_pixelFormat : GUID
  m_dataBuffer : Ptr
  m_locked_rect : Ptr
  m_bytesPerRow : Nat
  m_texture : Option Nat
  deriving DecidableEq, Repr

namespace CGIWICBitmapLock

/-- Constructor `CGIWICBitmapLock(texture, region, pixelFormat)` (lines 61-66):
stores the arguments, calls `m_texture->Lock(&bpr)` and keeps the pointer and the
stride converted to `size_t`.  A null `texture` is dereferenced. -/
def mkTexture (t : Target) (mem : Memory) (texture : Option Nat) (region : Ptr)
    (pixelFormat : GUID) : Run (CGIWICBitmapLock × Memory) :=
  match texture with
  | none => .undefined
  | some x =>
    let r := (mem.textures x).Lock
    .done ({ m_pixelFormat := pixelFormat, m_dataBuffer := r.1.1, m_locked_rect := region,
             m_bytesPerRow := toSize t r.1.2, m_texture := some x },
           { mem with textures := setAt mem.textures x r.2 })

/-- Constructor `CGIWICBitmapLock(data, region, bytesPerRow, pixelFormat)`
(lines 68-71): stores the arguments and clears `m_texture`. -/
def mkBuffer (data : Ptr) (region : Ptr) (bytesPerRow : Nat) (pixelFormat : GUID) :
    CGIWICBitmapLock :=
  { m_pixelFormat := pixelFormat, m_dataBuffer := data, m_locked_rect := region,
    m_bytesPerRow := bytesPerRow, m_texture := none }

/-- Destructor `~CGIWICBitmapLock` (lines 73-77): unlocks the texture if there is
one. -/
def destroy (l : CGIWICBitmapLock) (mem : Memory) : Memory :=
  match l.m_texture with
  | some x => { mem with textures := setAt mem.textures x (mem.textures x).Unlock }
  | none => mem

/-- Method `GetSize(width, height)` (lines 79-86).  The Boolean arguments say whether
the output slots are non-null; the result is the status and the values stored into
`*width` and `*height`.  `m_locked_rect` is dereferenced. -/
def GetSize (l : CGIWICBitmapLock) (mem : Memory) (width height : Bool) :
    Run (HRESULT × Option (Nat × Nat)) :=
  if !width then .done (.E_POINTER, none)
  else if !height then .done (.E_POINTER, none)
  else
    match l.m_locked_rect with
    | none => .undefined
    | some a =>
      match mem.rects a with
      | none => .undefined
      | some r => .done (.S_OK, some (toU32 r.Width, toU32 r.Height))

/-- Method `GetStride(stride)` (lines 88-92): `*stride = m_bytesPerRow`, a `size_t`
stored into a `UINT`. -/
def GetStride (l : CGIWICBitmapLock) (stride : Bool) : HRESULT × Option Nat :=
  if !stride then (.E_POINTER, none)
  else (.S_OK, some (l.m_bytesPerRow % 4294967296))

/-- Method `GetDataPointer(bufferSize, data)` (lines 94-100):
`*bufferSize = m_locked_rect->Height * m_bytesPerRow` is the product of an `INT`
and a `size_t`, evaluated in `size_t` and stored into a `UINT`; `*data` is
`m_dataBuffer`.  `m_locked_rect` is dereferenced. -/
def GetDataPointer (t : Target) (l : CGIWICBitmapLock) (mem : Memory)
    (bufferSize data : Bool) : Run (HRESULT × Option (Nat × Ptr)) :=
  if !bufferSize then .done (.E_POINTER, none)
  else if !data then .done (.E_POINTER, none)
  else
    match l.m_locked_rect with
    | none => .undefined
    | some a =>
      match mem.rects a with
      | none => .undefined
      | some r =>
        .done (.S_OK,
          some ((toSize t r.Height * l.m_bytesPerRow) % 2 ^ t.sizeBits % 4294967296,
                l.m_dataBuffer))

/-- Method `GetPixelFormat(pixelFormat)` (lines 102-106). -/
def GetPixelFormat (l : CGIWICBitmapLock) (pixelFormat : Bool) : HRESULT × Option GUID :=
  if !pixelFormat then (.E_POINTER, none)
  else (.S_OK, some l.m_pixelFormat)

end CGIWICBitmapLock

/-! ## The C runtime copy primitive -/

/-- The `errno` value `EINVAL`. -/
def EINVAL : Nat := 22

/-- The `errno` value `ERANGE`. -/
def ERANGE : Nat := 34

/-- Modelled from the spec: the copy primitive `memcpy_s(dest, destSize, src, count)`
of the C runtime, which "may report failure" (it is not part of the sources at hand).
It follows the documented contract of the runtime for the case that execution
continues after the invalid-parameter handler: a zero `count` does nothing and
succeeds; a null `dest` yields `EINVAL`; a null `src` or a `destSize` smaller than
`count` clears the `destSize` bytes of `dest` and yields `EINVAL` / `ERANGE`;
otherwise `count` bytes are copied and the result is 0.  Reading or writing past the
end of an array, or through a pointer to no live array, and copying an array onto
itself are undefined. -/
def memcpy_s (mem : Memory) (dest : Ptr) (destSize : Nat) (src : Ptr) (count : Nat) :
    Run (Nat × Memory) :=
  if count = 0 then .done (0, mem)
  else
    match dest with
    | none => .done (EINVAL, mem)
    | some d =>
      match mem.bytes d with
      | none => .undefined
      | some old =>
        if src = none ∨ destSize < count then
          if old.length < destSize then .undefined
          else
            .done (if src = none then EINVAL else ERANGE,
                   { mem with
                     bytes := setAt mem.bytes d
                                (some (List.replicate destSize 0 ++ old.drop destSize)) })
        else
          match src with
          | none => .undefined
          | some s =>
            match mem.bytes s with
            | none => .undefined
            | some source =>
              if s = d ∨ source.length < count ∨ old.length < count then .undefined
              else
                .done (0, { mem with
                            bytes := setAt mem.bytes d
                                       (some (source.take count ++ old.drop count)) })

/-! ## CGIWICBitmap -/

/-- The members of `CGIWICBitmap` (lines 258-266).  The two `double` members are kept
as their IEEE-754 bit patterns; they are only stored and returned. -/
structure CGIWICBitmap where
  m_pixelFormat : GUID
  m_texture : Option Nat
  m_height : Nat
  m_width : Nat
  m_dataBuffer : Ptr
  m_bytesPerRow : Nat
  m_freeData : Bool
  m_dpiX : Nat
  m_dpiY : Nat
  deriving DecidableEq, Repr

/-- The `double` value 96.0, as its bit pattern. -/
def dpi96 : Nat := 0x4058000000000000

namespace CGIWICBitmap

/-- Private method `Init(pixelFormat, height, width)` (lines 249-256). -/
def Init (b : CGIWICBitmap) (pixelFormat : GUID) (height width : Nat) : CGIWICBitmap :=
  { b with m_dpiX := dpi96, m_dpiY := dpi96, m_pixelFormat := pixelFormat,
           m_height := height, m_width := width, m_freeData := false }

/-- Constructor `CGIWICBitmap(texture, pixelFormat, height, width)` (lines 122-125):
the member initialisers set `m_dataBuffer` and `m_texture`, `Init` the rest.
`m_bytesPerRow` is not written at all: `uninit` is the indeterminate value the member
holds. -/
def mkTexture (texture : Option Nat) (pixelFormat : GUID) (height width : Nat)
    (uninit : Nat) : CGIWICBitmap :=
  Init { m_pixelFormat := 0, m_texture := texture, m_height := 0, m_width := 0,
         m_dataBuffer := none, m_bytesPerRow := uninit, m_freeData := false,
         m_dpiX := 0, m_dpiY := 0 } pixelFormat height width

/-- Constructor `CGIWICBitmap(data, pixelFormat, height, width)` (lines 128-144).
`properties` stands for `_CGGetPixelFormatProperties` followed by `->bitsPerPixel`
(declared in `CGImageInternal.h`, not part of the sources at hand): `none` is the
null result, on which `FAIL_FAST_IF` ends the process.  With a null `data` the
constructor allocates `m_height * m_bytesPerRow` bytes (a `size_t` product) and
sets `m_freeData`. -/
def mkBuffer (t : Target) (properties : GUID → Option Nat) (mem : Memory) (data : Ptr)
    (pixelFormat : GUID) (height width : Nat) : Run (CGIWICBitmap × Memory) :=
  let b := Init { m_pixelFormat := 0, m_texture := none, m_height := 0, m_width := 0,
                  m_dataBuffer := none, m_bytesPerRow := 0, m_freeData := false,
                  m_dpiX := 0, m_dpiY := 0 } pixelFormat height width
  match properties b.m_pixelFormat with
  | none => .failFast
  | some bitsPerPixel =>
    let b := { b with m_bytesPerRow :=
                 ((bitsPerPixel >>> 3) * b.m_width) % 2 ^ t.mulBits % 2 ^ t.sizeBits }
    match data with
    | some a => .done ({ b with m_dataBuffer := some a }, mem)
    | none =>
      let n := (b.m_height * b.m_bytesPerRow) % 2 ^ t.sizeBits
      .done ({ b with m_dataBuffer := some mem.heapTop, m_freeData := true },
             { mem with bytes := setAt mem.bytes mem.heapTop
                          (some ((List.range n).map mem.junk)),
                        heapTop := mem.heapTop + 1 })

/-- Destructor `~CGIWICBitmap` (lines 146-152): `delete[]` of the array when
`m_freeData` is set, then both members are cleared.  `delete[]` of a pointer to no
live array is undefined; `delete[]` of a null pointer does nothing. -/
def destroy (b : CGIWICBitmap) (mem : Memory) : Run (CGIWICBitmap × Memory) :=
  if b.m_freeData then
    match b.m_dataBuffer with
    | none => .done ({ b with m_dataBuffer := none, m_freeData := false }, mem)
    | some a =>
      match mem.bytes a with
      | none => .undefined
      | some _ =>
        .done ({ b with m_dataBuffer := none, m_freeData := false },
               { mem with bytes := setAt mem.bytes a none, freed := a :: mem.freed })
  else .done (b, mem)

/-- The last statements of `Lock` (lines 176-180): the lock is made over the texture
when `m_texture` is set and over `m_dataBuffer` otherwise, and handed out with
`S_OK`. -/
def makeLock (t : Target) (b : CGIWICBitmap) (mem : Memory) (region : Ptr) :
    Run (HRESULT × Option CGIWICBitmapLock × Memory) :=
  match b.m_texture with
  | some x =>
    match CGIWICBitmapLock.mkTexture t mem (some x) region b.m_pixelFormat with
    | .done (l, mem1) => .done (.S_OK, some l, mem1)
    | .undefined => .undefined
    | .failFast => .failFast
  | none =>
    .done (.S_OK,
           some (CGIWICBitmapLock.mkBuffer b.m_dataBuffer region b.m_bytesPerRow
                   b.m_pixelFormat),
           mem)

/-- Method `Lock(region, flags, outLock)` (lines 158-181).  `outLock` says whether the
output slot is non-null; the result is the status, the lock stored into `*outLock`
(if any) and the memory after the call.

With a null `region` the block of lines 162-165 creates the automatic object
`rect = { 0, 0, m_width, m_height }` at `stackTop`, points `region` to it, and ends:
the lifetime of `rect` ends with the block, before the lock is made from `region`.
With a supplied `region` the fields are read through the pointer; `INT` operands of
the comparisons with `m_height` and `m_width` are converted to `UINT`. -/
def Lock (t : Target) (b : CGIWICBitmap) (mem : Memory) (region : Ptr) (flags : Nat)
    (outLock : Bool) : Run (HRESULT × Option CGIWICBitmapLock × Memory) :=
  let _ := flags
  if !outLock then .done (.E_POINTER, none, mem)
  else
    match region with
    | none =>
      let a := mem.stackTop
      let rect : WICRect := ⟨0, 0, toI32 b.m_width, toI32 b.m_height⟩
      let mem1 := { mem with rects := setAt mem.rects a (some rect) }
      let region := some a
      let mem2 := { mem1 with rects := setAt mem1.rects a none }
      makeLock t b mem2 region
    | some a =>
      match mem.rects a with
      | none => .undefined
      | some r =>
        if r.X ≠ 0 ∨ r.Y ≠ 0 ∨ toU32 r.Height < b.m_height ∨ toU32 r.Width < b.m_width then
          .done (.E_NOTIMPL, none, mem)
        else if toU32 r.Width > b.m_width ∨ toU32 r.Height > b.m_height then
          .done (.E_INVALIDARG, none, mem)
        else makeLock t b mem (some a)

/-- Method `CopyPixels(copyRect, stride, bufferSize, buffer)` (lines 184-202).  The
`ComPtr` named `lock` releases the lock it holds on every path that leaves the
function after `Lock` succeeded, which runs the destructor of the lock. -/
def CopyPixels (t : Target) (b : CGIWICBitmap) (mem : Memory) (copyRect : Ptr)
    (stride bufferSize : Nat) (buffer : Ptr) : Run (HRESULT × Memory) :=
  let _ := stride
  match buffer with
  | none => .done (.E_POINTER, mem)
  | some _ =>
    match Lock t b mem copyRect 0 true with
    | .undefined => .undefined
    | .failFast => .failFast
    | .done (hr, none, mem1) => if hr.failed then .done (hr, mem1) else .undefined
    | .done (hr, some lock, mem1) =>
      if hr.failed then .done (hr, lock.destroy mem1)
      else
        match lock.GetDataPointer t mem1 true true with
        | .undefined => .undefined
        | .failFast => .failFast
        | .done (hr2, none) => if hr2.failed then .done (hr2, lock.destroy mem1) else .undefined
        | .done (hr2, some (sourceDataSize, sourceData)) =>
          if hr2.failed then .done (hr2, lock.destroy mem1)
          else if sourceDataSize > bufferSize then .done (.E_INVALIDARG, lock.destroy mem1)
          else
            match memcpy_s mem1 buffer bufferSize sourceData sourceDataSize with
            | .undefined => .undefined
            | .failFast => .failFast
            | .done (err, mem2) =>
              if err ≠ 0 then .done (.E_UNEXPECTED, lock.destroy mem2)
              else .done (.S_OK, lock.destroy mem2)

/-- Modelled from the spec: the macro `UNIMPLEMENTED()` of `Starboard.h` (not part of
the sources at hand) reports the call and changes nothing the bitmap can observe;
`SetPalette` (lines 204-207) then returns `E_NOTIMPL`. -/
def SetPalette (b : CGIWICBitmap) (palette : Ptr) : HRESULT × CGIWICBitmap :=
  let _ := palette
  (.E_NOTIMPL, b)

/-- Method `SetResolution(dpiX, dpiY)` (lines 209-213). -/
def SetResolution (b : CGIWICBitmap) (dpiX dpiY : Nat) : HRESULT × CGIWICBitmap :=
  (.S_OK, { b with m_dpiY := dpiY, m_dpiX := dpiX })

/-- Method `GetSize(width, height)` (lines 216-223); the Booleans say whether the
output slots are non-null, the pair is `(*width, *height)`. -/
def GetSize (b : CGIWICBitmap) (width height : Bool) : HRESULT × Option (Nat × Nat) :=
  if !width then (.E_POINTER, none)
  else if !height then (.E_POINTER, none)
  else (.S_OK, some (b.m_width, b.m_height))

/-- Method `GetPixelFormat(pixelFormat)` (lines 225-229). -/
def GetPixelFormat (b : CGIWICBitmap) (pixelFormat : Bool) : HRESULT × Option GUID :=
  if !pixelFormat then (.E_POINTER, none)
  else (.S_OK, some b.m_pixelFormat)

/-- Method `GetResolution(dpiX, dpiY)` (lines 231-237); the pair is
`(*dpiX, *dpiY)`. -/
def GetResolution (b : CGIWICBitmap) (dpiX dpiY : Bool) : HRESULT × Option (Nat × Nat) :=
  if !dpiX then (.E_POINTER, none)
  else if !dpiY then (.E_POINTER, none)
  else (.S_OK, some (b.m_dpiX, b.m_dpiY))

/-- Method `CopyPalette(palette)` (lines 239-242): `UNIMPLEMENTED()`, then
`E_NOTIMPL`. -/
def CopyPalette (b : CGIWICBitmap) (palette : Ptr) : HRESULT × CGIWICBitmap :=
  let _ := palette
  (.E_NOTIMPL, b)

/-- Method `DisplayTexture()` (lines 244-246). -/
def DisplayTexture (b : CGIWICBitmap) : Option Nat := b.m_texture

end CGIWICBitmap

/-! ## Sequences of calls on one bitmap -/

/-- One thing that happens to a bitmap and the memory around it: a call of one of
the public methods with its arguments, or any action `caller` of the code that
holds the bitmap on the memory (writing through a data pointer, changing or ending
a rectangle, releasing a lock, ...).  The caller has no access to the private
members of the bitmap. -/
inductive Op where
  | Lock (region : Ptr) (flags : Nat) (outLock : Bool)
  | CopyPixels (copyRect : Ptr) (stride bufferSize : Nat) (buffer : Ptr)
  | SetPalette (palette : Ptr)
  | SetResolution (dpiX dpiY : Nat)
  | GetSize (width height : Bool)
  | GetPixelFormat (pixelFormat : Bool)
  | GetResolution (dpiX dpiY : Bool)
  | CopyPalette (palette : Ptr)
  | DisplayTexture
  | caller (f : Memory → Memory)

/-- The bitmap and the memory after one operation; results handed to the caller
are dropped. -/
def step (t : Target) : Op → CGIWICBitmap × Memory → Run (CGIWICBitmap × Memory)
  | .Lock region flags outLock, (b, mem) =>
    match b.Lock t mem region flags outLock with
    | .done (_, _, mem1) => .done (b, mem1)
    | .undefined => .undefined
    | .failFast => .failFast
  | .CopyPixels copyRect stride bufferSize buffer, (b, mem) =>
    match b.CopyPixels t mem copyRect stride bufferSize buffer with
    | .done (_, mem1) => .done (b, mem1)
    | .undefined => .undefined
    | .failFast => .failFast
  | .SetPalette palette, (b, mem) => .done ((b.SetPalette palette).2, mem)
  | .SetResolution dpiX dpiY, (b, mem) => .done ((b.SetResolution dpiX dpiY).2, mem)
  | .GetSize _ _, (b, mem) => .done (b, mem)
  | .GetPixelFormat _, (b, mem) => .done (b, mem)
  | .GetResolution _ _, (b, mem) => .done (b, mem)
  | .CopyPalette palette, (b, mem) => .done ((b.CopyPalette palette).2, mem)
  | .DisplayTexture, (b, mem) => .done (b, mem)
  | .caller f, (b, mem) => .done (b, f mem)

/-- The bitmap and the memory after a sequence of operations. -/
def run (t : Target) : List Op → CGIWICBitmap × Memory → Run (CGIWICBitmap × Memory)
  | [], s => .done s
  | op :: ops, s =>
    match step t op s with
    | .done s1 => run t ops s1
    | .undefined => .undefined
    | .failFast => .failFast

/-- The teardown logic of the bitmap (the body of its destructor) invoked `n` times
in a row. -/
def teardown : Nat → CGIWICBitmap × Memory → Run (CGIWICBitmap × Memory)
  | 0, s => .done s
  | n + 1, s =>
    match CGIWICBitmap.destroy s.1 s.2 with
    | .done s1 => teardown n s1
    | .undefined => .undefined
    | .failFast => .failFast

/-! ## Concrete objects for the checks on explicit inputs -/

/-- One pixel-format table: every format has 32 bits per pixel. -/
def sampleProps : GUID → Option Nat := fun _ => some 32

/-- A memory with a few caller-owned rectangles (addresses 7 to 11), a pixel array
of 32 bytes at address 5 holding 0, 1, ..., 31, a destination array of 32 bytes at
address 6 holding 9 everywhere, a texture 1 whose `Lock` yields the array at 5 with
stride 16, and other textures whose `Lock` yields a null pointer with stride 16. -/
def sampleMem : Memory where
  rects := fun a =>
    if a = 7 then some ⟨0, 0, 4, -1⟩
    else if a = 8 then some ⟨0, 0, 4, 2⟩
    else if a = 9 then some ⟨1, 0, 4, 2⟩
    else if a = 10 then some ⟨0, 0, 5, 2⟩
    else if a = 11 then some ⟨0, 0, 16384, 65536⟩
    else none
  stackTop := 1000
  bytes := fun a =>
    if a = 5 then some (List.range 32)
    else if a = 6 then some (List.replicate 32 9)
    else none
  heapTop := 2000
  junk := fun _ => 205
  textures := fun i =>
    if i = 1 then ⟨fun _ => (some 5, 16), 0, 0⟩ else ⟨fun _ => (none, 16), 0, 0⟩
  freed := []

/-- The buffer-backed bitmap of width 4 and height 2 over the caller's array at
address 5, as the buffer constructor leaves it with `sampleProps`. -/
def sampleBitmap : CGIWICBitmap :=
  { m_pixelFormat := 1, m_texture := none, m_height := 2, m_width := 4,
    m_dataBuffer := some 5, m_bytesPerRow := 16, m_freeData := false,
    m_dpiX := dpi96, m_dpiY := dpi96 }

/-- The texture-backed bitmap of width 4 and height 2 over texture 0, whose `Lock`
yields a null data pointer with stride 16. -/
def sampleTextureBitmap : CGIWICBitmap := CGIWICBitmap.mkTexture (some 0) 1 2 4 0

/-- The buffer-backed bitmap of width 4 and height 2 that allocated its own array, as
the buffer constructor leaves it for a null data pointer in `sampleMem`. -/
def sampleOwnedBitmap : CGIWICBitmap :=
  { m_pixelFormat := 1, m_texture := none, m_height := 2, m_width := 4,
    m_dataBuffer := some 2000, m_bytesPerRow := 16, m_freeData := true,
    m_dpiX := dpi96, m_dpiY := dpi96 }

/-- The memory after that construction: `sampleMem` with the fresh array of 32 bytes
at address 2000. -/
def sampleOwnedMem : Memory :=
  { sampleMem with
    bytes := setAt sampleMem.bytes 2000 (some ((List.range 32).map sampleMem.junk))
    heapTop := 2001 }

/-! ## Auxiliary facts -/

/-- Conversion to `UINT` keeps a value that is in the range of `UINT`. -/
theorem toU32_eq_of_range (x : Int) (h0 : 0 ≤ x) (h1 : x < 4294967296) :
    toU32 x = x.toNat := by
  unfold toU32; omega

/-- With a null region, `Lock` makes the lock in a memory in which the automatic
rectangle at `stackTop` has been created and has ended its lifetime again. -/
theorem Lock_null_eq (t : Target) (b : CGIWICBitmap) (mem : Memory) (flags : Nat) :
    CGIWICBitmap.Lock t b mem none flags true =
      CGIWICBitmap.makeLock t b
        { mem with rects := setAt (setAt mem.rects mem.stackTop
                      (some ⟨0, 0, toI32 b.m_width, toI32 b.m_height⟩)) mem.stackTop none }
        (some mem.stackTop) := by
  simp [CGIWICBitmap.Lock]

/-- Making the lock always succeeds; the lock keeps the region pointer and the
rectangles and byte arrays of the memory are as before. -/
theorem makeLock_spec (t : Target) (b : CGIWICBitmap) (mem : Memory) (region : Ptr) :
    ∃ l mem', CGIWICBitmap.makeLock t b mem region = .done (.S_OK, some l, mem') ∧
      l.m_locked_rect = region ∧ mem'.rects = mem.rects ∧ mem'.bytes = mem.bytes ∧
      mem'.stackTop = mem.stackTop := by
  unfold CGIWICBitmap.makeLock
  cases hx : b.m_texture with
  | none => exact ⟨_, _, rfl, rfl, rfl, rfl, rfl⟩
  | some x => exact ⟨_, _, rfl, rfl, rfl, rfl, rfl⟩

/-- With a null region `Lock` succeeds, and the rectangle of the lock is the
automatic object at `stackTop`, which is not alive when `Lock` returns. -/
theorem Lock_null_spec (t : Target) (b : CGIWICBitmap) (mem : Memory) (flags : Nat) :
    ∃ l mem', CGIWICBitmap.Lock t b mem none flags true = .done (.S_OK, some l, mem') ∧
      l.m_locked_rect = some mem.stackTop ∧ mem'.rects mem.stackTop = none := by
  rw [Lock_null_eq]
  obtain ⟨l, mem', h, hl, hr, -, -⟩ := makeLock_spec t b
    { mem with rects := setAt (setAt mem.rects mem.stackTop
                      (some ⟨0, 0, toI32 b.m_width, toI32 b.m_height⟩)) mem.stackTop none }
    (some mem.stackTop)
  exact ⟨l, mem', h, hl, by simp [hr, setAt]⟩

/-- Reading the data size of a lock whose rectangle is not alive is undefined. -/
theorem GetDataPointer_expired (t : Target) (l : CGIWICBitmapLock) (mem : Memory) (a : Nat)
    (hl : l.m_locked_rect = some a) (hr : mem.rects a = none) :
    l.GetDataPointer t mem true true = .undefined := by
  simp [CGIWICBitmapLock.GetDataPointer, hl, hr]

/-- With a null `copyRect` and a non-null destination, `CopyPixels` reads the height
of the expired rectangle of `Lock`. -/
theorem CopyPixels_null_undefined (t : Target) (b : CGIWICBitmap) (mem : Memory)
    (stride bufferSize d : Nat) :
    CGIWICBitmap.CopyPixels t b mem none stride bufferSize (some d) = .undefined := by
  obtain ⟨l, mem', h, hl, hr⟩ := Lock_null_spec t b mem 0
  simp only [CGIWICBitmap.CopyPixels, h, HRESULT.failed]
  simp [GetDataPointer_expired t l mem' _ hl hr]

/-- Destroying a lock leaves the byte arrays alone. -/
theorem destroy_bytes (l : CGIWICBitmapLock) (mem : Memory) :
    (l.destroy mem).bytes = mem.bytes := by
  unfold CGIWICBitmapLock.destroy
  cases l.m_texture <;> rfl

/-- A call of `Lock` that returns leaves the byte arrays alone, and hands out no lock
when it fails. -/
theorem Lock_done_bytes (t : Target) (b : CGIWICBitmap) (mem : Memory) (region : Ptr)
    (flags : Nat) (o : Bool) (hr : HRESULT) (l : Option CGIWICBitmapLock) (mem1 : Memory)
    (h : CGIWICBitmap.Lock t b mem region flags o = .done (hr, l, mem1)) :
    mem1.bytes = mem.bytes ∧ (hr.failed = true → l = none) := by
  unfold CGIWICBitmap.Lock at h
  split at h
  · cases h; exact ⟨rfl, fun _ => rfl⟩
  · split at h
    · obtain ⟨l', m', e, -, -, hb, -⟩ := makeLock_spec t b
        { mem with rects := setAt (setAt mem.rects mem.stackTop
                      (some ⟨0, 0, toI32 b.m_width, toI32 b.m_height⟩)) mem.stackTop none }
        (some mem.stackTop)
      simp only [e] at h
      cases h
      exact ⟨hb, fun hf => by simp [HRESULT.failed] at hf⟩
    · split at h
      · cases h
      · split at h
        · cases h; exact ⟨rfl, fun _ => rfl⟩
        · split at h
          · cases h; exact ⟨rfl, fun _ => rfl⟩
          · rename_i a _ _ _ _ _
            obtain ⟨l', m', e, -, -, hb, -⟩ := makeLock_spec t b mem (some a)
            rw [e] at h
            cases h
            exact ⟨hb, fun hf => by simp [HRESULT.failed] at hf⟩

/-! ## C1: regions that are not the full bitmap -/

/-- The test of line 169, as the code evaluates it: `Lock` with a supplied region
whose `X` is non-zero, or whose `Y` is non-zero, or whose `Height` converted to `UINT`
is less than the height, or whose `Width` converted to `UINT` is less than the width,
returns `E_NOTIMPL`, produces no lock and leaves the memory as it was. -/
theorem Lock_rejects_subregion (t : Target) (b : CGIWICBitmap) (mem : Memory) (a : Nat)
    (r : WICRect) (flags : Nat) (hr : mem.rects a = some r)
    (hsub : r.X ≠ 0 ∨ r.Y ≠ 0 ∨ toU32 r.Height < b.m_height ∨ toU32 r.Width < b.m_width) :
    CGIWICBitmap.Lock t b mem (some a) flags true = .done (.E_NOTIMPL, none, mem) := by
  simp only [CGIWICBitmap.Lock, hr]
  simp [hsub]

/-- The region `{1, 0, 4, 2}` on the bitmap of width 4 and height 2. -/
theorem Lock_rejects_subregion_witness :
    CGIWICBitmap.Lock Target.x86 sampleBitmap sampleMem (some 9) 0 true
      = .done (.E_NOTIMPL, none, sampleMem) :=
  Lock_rejects_subregion Target.x86 sampleBitmap sampleMem 9 ⟨1, 0, 4, 2⟩ 0 rfl
    (Or.inl (by decide))

/-- Where the code does what is asked of it: for every bitmap, every flags value and a
non-null output slot, `Lock` with a supplied region whose `X` is non-zero, or whose
`Y` is non-zero, or whose `Height` is non-negative and less than the height, or whose
`Width` is non-negative and less than the width (integer comparisons), returns
`E_NOTIMPL`, produces no lock and leaves the memory as it was. -/
theorem Lock_rejects_subregion_nonneg (t : Target) (b : CGIWICBitmap) (mem : Memory) (a : Nat)
    (r : WICRect) (flags : Nat) (hr : mem.rects a = some r) (hwf : r.wf)
    (hsub : r.X ≠ 0 ∨ r.Y ≠ 0 ∨ (0 ≤ r.Height ∧ r.Height < (b.m_height : Int)) ∨
      (0 ≤ r.Width ∧ r.Width < (b.m_width : Int))) :
    CGIWICBitmap.Lock t b mem (some a) flags true = .done (.E_NOTIMPL, none, mem) := by
  obtain ⟨-, -, ⟨-, hw1⟩, -, hh1⟩ := hwf
  apply Lock_rejects_subregion t b mem a r flags hr
  rcases hsub with h | h | ⟨h0, h⟩ | ⟨h0, h⟩
  · exact Or.inl h
  · exact Or.inr (Or.inl h)
  · refine Or.inr (Or.inr (Or.inl ?_))
    rw [toU32_eq_of_range _ h0 (by omega)]; omega
  · refine Or.inr (Or.inr (Or.inr ?_))
    rw [toU32_eq_of_range _ h0 (by omega)]; omega

/-- Where the code misses: for every bitmap with a height below `2^31`, a supplied
region with `X = 0`, `Y = 0`, a negative `Height` (less than every height) and a
`Width` that is not less than the width is not rejected by the test of line 169,
because the `INT` is converted to `UINT` there; line 173 then returns
`E_INVALIDARG`. -/
theorem Lock_negative_height (t : Target) (b : CGIWICBitmap) (mem : Memory) (a : Nat)
    (r : WICRect) (flags : Nat) (hr : mem.rects a = some r) (hwf : r.wf)
    (hx : r.X = 0) (hy : r.Y = 0) (hneg : r.Height < 0) (hb : b.m_height < 2147483648)
    (hw : (b.m_width : Int) ≤ r.Width) :
    CGIWICBitmap.Lock t b mem (some a) flags true = .done (.E_INVALIDARG, none, mem) := by
  obtain ⟨-, -, ⟨hw0, hw1⟩, hh0, hh1⟩ := hwf
  have e1 : toU32 r.Width = r.Width.toNat := toU32_eq_of_range _ (by omega) (by omega)
  have e2 : toU32 r.Height = (r.Height + 4294967296).toNat := by
    unfold toU32; omega
  have n1 : ¬ (r.X ≠ 0 ∨ r.Y ≠ 0 ∨ toU32 r.Height < b.m_height ∨
      toU32 r.Width < b.m_width) := by
    rw [e1, e2]; omega
  have n2 : toU32 r.Width > b.m_width ∨ toU32 r.Height > b.m_height := by
    rw [e1, e2]; omega
  simp only [CGIWICBitmap.Lock, hr]
  simp [n1, n2]

/-- C1 at its failing input.  On the bitmap of width 4 and height 2 the supplied region
`{0, 0, 4, -1}` has a `Height` that is less than the height 2, so `Lock` is to fail
with `E_NOTIMPL`; it returns `E_INVALIDARG` instead (still without a lock): the
comparison `region->Height < m_height` of line 169 converts the `INT` to `UINT`,
which turns -1 into 4294967295, and the region only fails the test of line 173. -/
theorem Lock_negative_height_invalidarg :
    CGIWICBitmap.mkBuffer Target.x86 sampleProps sampleMem (some 5) 1 2 4
        = .done (sampleBitmap, sampleMem) ∧
      sampleMem.rects 7 = some ⟨0, 0, 4, -1⟩ ∧ (WICRect.mk 0 0 4 (-1)).wf ∧
      (WICRect.mk 0 0 4 (-1)).Height < ((sampleBitmap.m_height : Nat) : Int) ∧
      toU32 (WICRect.mk 0 0 4 (-1)).Height = 4294967295 ∧
      CGIWICBitmap.Lock Target.x86 sampleBitmap sampleMem (some 7) 0 true
        = .done (.E_INVALIDARG, none, sampleMem) :=
  ⟨rfl, rfl, by decide, by decide, by decide, rfl⟩

/-! ## C2: regions larger than the bitmap -/

/-- C2: for every bitmap and a non-null output slot, `Lock` with a supplied region
with `X = 0`, `Y = 0`, `Width >= width`, `Height >= height` that is strictly larger
in at least one dimension returns `E_INVALIDARG`, produces no lock and leaves the
memory as it was. -/
theorem Lock_rejects_oversize (t : Target) (b : CGIWICBitmap) (mem : Memory) (a : Nat)
    (r : WICRect) (flags : Nat) (hr : mem.rects a = some r) (hwf : r.wf)
    (hx : r.X = 0) (hy : r.Y = 0)
    (hw : (b.m_width : Int) ≤ r.Width) (hh : (b.m_height : Int) ≤ r.Height)
    (hbig : (b.m_width : Int) < r.Width ∨ (b.m_height : Int) < r.Height) :
    CGIWICBitmap.Lock t b mem (some a) flags true = .done (.E_INVALIDARG, none, mem) := by
  obtain ⟨-, -, ⟨hw0, hw1⟩, hh0, hh1⟩ := hwf
  have e1 : toU32 r.Width = r.Width.toNat := toU32_eq_of_range _ (by omega) (by omega)
  have e2 : toU32 r.Height = r.Height.toNat := toU32_eq_of_range _ (by omega) (by omega)
  have n1 : ¬ (r.X ≠ 0 ∨ r.Y ≠ 0 ∨ toU32 r.Height < b.m_height ∨
      toU32 r.Width < b.m_width) := by
    rw [e1, e2]; omega
  have n2 : toU32 r.Width > b.m_width ∨ toU32 r.Height > b.m_height := by
    rw [e1, e2]; omega
  simp only [CGIWICBitmap.Lock, hr]
  simp [n1, n2]

/-- The region `{0, 0, width + 1, height}` on the bitmap of width 4 and height 2. -/
theorem Lock_rejects_oversize_witness :
    CGIWICBitmap.Lock Target.x86 sampleBitmap sampleMem (some 10) 0 true
      = .done (.E_INVALIDARG, none, sampleMem) :=
  Lock_rejects_oversize Target.x86 sampleBitmap sampleMem 10 ⟨0, 0, 5, 2⟩ 0 rfl
    (by decide) rfl rfl (by decide) (by decide) (Or.inl (by decide))

/-! ## C3: the lock of the full bitmap -/

/-- C3 at every input: with a null region `Lock` returns `S_OK` and a lock, but the
rectangle the lock points to is the automatic object of the block of lines 162-165,
whose lifetime ended before the lock was made: `GetSize` of the returned lock
dereferences a pointer to no live object and reports nothing. -/
theorem Lock_null_GetSize_undefined (t : Target) (b : CGIWICBitmap) (mem : Memory)
    (flags : Nat) :
    ∃ l mem', CGIWICBitmap.Lock t b mem none flags true = .done (.S_OK, some l, mem') ∧
      l.m_locked_rect = some mem.stackTop ∧ mem'.rects mem.stackTop = none ∧
      l.GetSize mem' true true = .undefined := by
  rw [Lock_null_eq]
  obtain ⟨l, mem', h, hl, hr, -, -⟩ := makeLock_spec t b
    { mem with rects := setAt (setAt mem.rects mem.stackTop
                      (some ⟨0, 0, toI32 b.m_width, toI32 b.m_height⟩)) mem.stackTop none }
    (some mem.stackTop)
  refine ⟨l, mem', h, hl, ?_, ?_⟩
  · simp [hr, setAt]
  · simp [CGIWICBitmapLock.GetSize, hl, hr, setAt]

/-! ## C4: round trip through a lock and `CopyPixels` -/

/-- C4 at its failing input.  On the buffer-backed bitmap of width 4 and height 2
whose array holds the pattern 0, 1, ..., 31, the lock of `Lock(null, 0)` cannot
report its data size and `CopyPixels(null, 16, 32, dest)` does not return `S_OK`
with the pattern in `dest`: both read `Height` through the pointer to the expired
rectangle of `Lock` (and so does `CopyPixels` with a null `copyRect` on every bitmap,
for every stride and size).  With the full rectangle supplied by the caller (address
8) the same call returns `S_OK` and `dest` holds the pattern. -/
theorem roundtrip_null_rect_undefined :
    CGIWICBitmap.mkBuffer Target.x86 sampleProps sampleMem (some 5) 1 2 4
        = .done (sampleBitmap, sampleMem) ∧
      sampleMem.bytes 5 = some (List.range 32) ∧
      (∃ l mem1, CGIWICBitmap.Lock Target.x86 sampleBitmap sampleMem none 0 true
          = .done (.S_OK, some l, mem1) ∧
        l.GetDataPointer Target.x86 mem1 true true = .undefined) ∧
      CGIWICBitmap.CopyPixels Target.x86 sampleBitmap sampleMem none 16 32 (some 6)
        = .undefined ∧
      (∀ (t : Target) (b : CGIWICBitmap) (mem : Memory) (stride bufferSize d : Nat),
        CGIWICBitmap.CopyPixels t b mem none stride bufferSize (some d) = .undefined) ∧
      (∃ mem2, CGIWICBitmap.CopyPixels Target.x86 sampleBitmap sampleMem (some 8) 16 32
          (some 6) = .done (.S_OK, mem2) ∧
        mem2.bytes 6 = some (List.range 32)) :=
  ⟨rfl, rfl, ⟨_, _, rfl, rfl⟩, rfl, CopyPixels_null_undefined, ⟨_, rfl, rfl⟩⟩

/-! ## C5: a destination that is too small -/

/-- C5 at its failing input.  On the bitmap of width 4 and height 2 with stride 16
the data size is 32; `CopyPixels(null, 16, 31, dest)` does not return
`E_INVALIDARG`: it reads `Height` through the pointer to the expired rectangle of
`Lock` before it compares the sizes.  With the full rectangle supplied by the caller
(address 8) the call returns `E_INVALIDARG` and the memory is as before. -/
theorem CopyPixels_small_buffer_null_rect :
    CGIWICBitmap.CopyPixels Target.x86 sampleBitmap sampleMem none 16 31 (some 6)
        = .undefined ∧
      CGIWICBitmap.CopyPixels Target.x86 sampleBitmap sampleMem (some 8) 16 31 (some 6)
        = .done (.E_INVALIDARG, sampleMem) :=
  ⟨rfl, rfl⟩

/-! ## C6: the destination after a failed `CopyPixels` -/

/-- C6, as stated, fails.  The texture-backed bitmap of width 4 and height 2 over a
texture whose `Lock` yields a null data pointer with stride 16 reports the source
size 32 and a null source; `memcpy_s` then clears the 32 bytes of the destination
and reports `EINVAL`, so `CopyPixels` returns `E_UNEXPECTED` and the destination,
which held 9 in every byte, holds 0 in every byte. -/
theorem CopyPixels_unexpected_clears_destination :
    sampleMem.rects 8 = some ⟨0, 0, 4, 2⟩ ∧
      sampleMem.bytes 6 = some (List.replicate 32 9) ∧
      (sampleMem.textures 0).onLock 0 = (none, 16) ∧
      ∃ mem', CGIWICBitmap.CopyPixels Target.x86 sampleTextureBitmap sampleMem (some 8) 16 32
          (some 6) = .done (.E_UNEXPECTED, mem') ∧
        mem'.bytes 6 = some (List.replicate 32 0) :=
  ⟨rfl, rfl, rfl, _, rfl, rfl⟩

/-- When `memcpy_s` reports failure although `count` does not exceed `destSize`, the
source pointer is null and the `destSize` bytes of the destination were cleared. -/
theorem memcpy_s_failure (mem : Memory) (d destSize : Nat) (src : Ptr) (count err : Nat)
    (mem2 : Memory) (h : memcpy_s mem (some d) destSize src count = .done (err, mem2))
    (herr : err ≠ 0) (hle : ¬ count > destSize) :
    ∃ old, mem.bytes d = some old ∧ src = none ∧
      mem2.bytes = setAt mem.bytes d (some (List.replicate destSize 0 ++ old.drop destSize)) := by
  unfold memcpy_s at h
  by_cases hc0 : count = 0
  · simp only [hc0, if_true] at h
    cases h; exact absurd rfl herr
  · simp only [hc0, if_false] at h
    cases hold : mem.bytes d with
    | none => simp only [hold] at h; cases h
    | some old =>
      simp only [hold] at h
      cases src with
      | none =>
        simp only [true_or, if_true] at h
        by_cases hlen : old.length < destSize
        · simp only [hlen, if_true] at h; cases h
        · simp only [hlen, if_false] at h
          cases h
          exact ⟨old, rfl, rfl, rfl⟩
      | some s =>
        have hno : ¬ ((some s : Ptr) = none ∨ destSize < count) := by
          simp; omega
        simp only [hno, if_false] at h
        cases hsrc : mem.bytes s with
        | none => simp only [hsrc] at h; cases h
        | some source =>
          simp only [hsrc] at h
          by_cases hbad : s = d ∨ source.length < count ∨ old.length < count
          · simp only [hbad, if_true] at h; cases h
          · simp only [hbad, if_false] at h
            cases h; exact absurd rfl herr

/-- `Lock` never returns `E_UNEXPECTED`. -/
theorem Lock_done_status (t : Target) (b : CGIWICBitmap) (mem : Memory) (region : Ptr)
    (flags : Nat) (o : Bool) (hr : HRESULT) (l : Option CGIWICBitmapLock) (mem1 : Memory)
    (h : CGIWICBitmap.Lock t b mem region flags o = .done (hr, l, mem1)) :
    hr ≠ .E_UNEXPECTED := by
  unfold CGIWICBitmap.Lock at h
  split at h
  · cases h; simp
  · split at h
    · obtain ⟨l', m', e, -⟩ := makeLock_spec t b
        { mem with rects := setAt (setAt mem.rects mem.stackTop
                      (some ⟨0, 0, toI32 b.m_width, toI32 b.m_height⟩)) mem.stackTop none }
        (some mem.stackTop)
      simp only [e] at h
      cases h; simp
    · split at h
      · cases h
      · split at h
        · cases h; simp
        · split at h
          · cases h; simp
          · rename_i a _ _ _ _ _
            obtain ⟨l', m', e, -⟩ := makeLock_spec t b mem (some a)
            rw [e] at h
            cases h; simp

/-- With both output slots present, `GetDataPointer` does not fail when it returns. -/
theorem GetDataPointer_done (t : Target) (l : CGIWICBitmapLock) (mem : Memory)
    (hr : HRESULT) (o : Option (Nat × Ptr))
    (h : l.GetDataPointer t mem true true = .done (hr, o)) : hr.failed = false := by
  unfold CGIWICBitmapLock.GetDataPointer at h
  simp only [Bool.not_true, Bool.false_eq_true, if_false] at h
  split at h
  · cases h
  · split at h
    · cases h
    · cases h; rfl

/-- C6, amended: for every bitmap (either backend) and every argument combination, if
`CopyPixels` returns `E_POINTER`, `E_NOTIMPL` or `E_INVALIDARG`, every byte array of
the memory, the destination included, is as before the call; if it returns
`E_UNEXPECTED`, the copy primitive has cleared the first `bufferSize` bytes of the
destination and left the rest. -/
theorem CopyPixels_failure_effect (t : Target) (b : CGIWICBitmap) (mem : Memory)
    (copyRect : Ptr) (stride bufferSize : Nat) (buffer : Ptr) (hr : HRESULT) (mem' : Memory)
    (h : CGIWICBitmap.CopyPixels t b mem copyRect stride bufferSize buffer = .done (hr, mem')) :
    ((hr = .E_POINTER ∨ hr = .E_NOTIMPL ∨ hr = .E_INVALIDARG) → mem'.bytes = mem.bytes) ∧
    (hr = .E_UNEXPECTED → ∃ d old, buffer = some d ∧ mem.bytes d = some old ∧
      mem'.bytes = setAt mem.bytes d
        (some (List.replicate bufferSize 0 ++ old.drop bufferSize))) := by
  unfold CGIWICBitmap.CopyPixels at h
  split at h
  · cases h; exact ⟨fun _ => rfl, fun hf => by cases hf⟩
  · split at h
    · cases h
    · cases h
    · rename_i hr1 mem1 hL
      have := Lock_done_bytes t b mem copyRect 0 true _ _ _ hL
      split at h
      · rename_i hfail
        cases h
        exact ⟨fun _ => this.1,
          fun hf => absurd hf (Lock_done_status t b mem copyRect 0 true _ _ _ hL)⟩
      · cases h
    · rename_i hr1 lock mem1 hL
      have hb := (Lock_done_bytes t b mem copyRect 0 true _ _ _ hL).1
      have hn := (Lock_done_bytes t b mem copyRect 0 true _ _ _ hL).2
      split at h
      · rename_i hfail
        exact absurd (hn hfail) (by simp)
      · split at h
        · cases h
        · cases h
        · split at h
          · rename_i hg hfail2
            rw [GetDataPointer_done t lock mem1 _ _ hg] at hfail2
            cases hfail2
          · cases h
        · split at h
          · rename_i hg hfail2
            rw [GetDataPointer_done t lock mem1 _ _ hg] at hfail2
            cases hfail2
          · split at h
            · cases h
              exact ⟨fun _ => by rw [destroy_bytes]; exact hb, fun hf => by cases hf⟩
            · rename_i hsz
              split at h
              · cases h
              · cases h
              · rename_i err mem2 hcp
                split at h
                · rename_i herr
                  cases h
                  refine ⟨fun hf => (by rcases hf with hf | hf | hf <;> cases hf), fun _ => ?_⟩
                  obtain ⟨old, hold, -, hm⟩ := memcpy_s_failure _ _ _ _ _ _ _ hcp herr hsz
                  rw [hb] at hold hm
                  exact ⟨_, old, rfl, hold, by rw [destroy_bytes]; exact hm⟩
                · cases h
                  exact ⟨fun hf => (by rcases hf with hf | hf | hf <;> cases hf),
                    fun hf => by cases hf⟩

/-- The texture-backed bitmap of width 4 and height 2 over texture 1 (stride 16, data
size 32) with a destination of 31 bytes: `E_INVALIDARG`, byte arrays as before. -/
theorem CopyPixels_failure_effect_witness :
    ∃ mem', CGIWICBitmap.CopyPixels Target.x86 (CGIWICBitmap.mkTexture (some 1) 1 2 4 0)
        sampleMem (some 8) 16 31 (some 6) = .done (.E_INVALIDARG, mem') ∧
      mem'.bytes = sampleMem.bytes :=
  ⟨_, rfl, (CopyPixels_failure_effect Target.x86 (CGIWICBitmap.mkTexture (some 1) 1 2 4 0)
    sampleMem (some 8) 16 31 (some 6) _ _ rfl).1 (Or.inr (Or.inr rfl))⟩

/-! ## C7: the data size of a lock -/

/-- The modulus of `UINT` divides that of every type of at least 32 bits. -/
theorem pow32_dvd (n : Nat) (h : 32 ≤ n) : 4294967296 ∣ 2 ^ n := by
  have : (2 : Nat) ^ 32 ∣ 2 ^ n := pow_dvd_pow 2 h
  simpa using this

/-- The `size_t` product of a converted `INT` and a `size_t`, stored into a `UINT`, is
the integer product reduced modulo `2^32`. -/
theorem size_product_eq (t : Target) (h : 32 ≤ t.sizeBits) (x : Int) (n : Nat) :
    (toSize t x * n) % 2 ^ t.sizeBits % 4294967296 = toU32 (x * n) := by
  have hd : 4294967296 ∣ 2 ^ t.sizeBits := pow32_dvd _ h
  have hdi : (4294967296 : Int) ∣ ((2 ^ t.sizeBits : Nat) : Int) := by exact_mod_cast hd
  rw [Nat.mod_mod_of_dvd _ hd]
  unfold toU32 toSize
  have hpos : (0 : Int) < ((2 ^ t.sizeBits : Nat) : Int) := by positivity
  have h1 : (((x % ((2 ^ t.sizeBits : Nat) : Int)).toNat : Nat) : Int)
      = x % ((2 ^ t.sizeBits : Nat) : Int) :=
    Int.toNat_of_nonneg (Int.emod_nonneg _ (ne_of_gt hpos))
  apply Int.ofNat.inj
  show (((x % ((2 ^ t.sizeBits : Nat) : Int)).toNat * n % 4294967296 : Nat) : Int)
      = (((x * n) % 4294967296).toNat : Int)
  rw [Int.toNat_of_nonneg (Int.emod_nonneg _ (by norm_num))]
  push_cast at h1 hdi ⊢
  rw [h1, Int.mul_emod, Int.emod_emod_of_dvd _ hdi, ← Int.mul_emod]

/-- C7, as stated, fails.  The buffer-backed bitmap of width 16384 and height 65536 at
32 bits per pixel has `m_bytesPerRow = 65536`; its lock over the full rectangle has
`Height * bytesPerRow = 65536 * 65536 = 4294967296`, and `GetDataPointer` reports the
size 0: the product does not fit the `UINT` slot. -/
theorem GetDataPointer_size_wraps :
    ∃ b l, CGIWICBitmap.mkBuffer Target.x64 sampleProps sampleMem (some 5) 1 65536 16384
        = .done (b, sampleMem) ∧ b.m_bytesPerRow = 65536 ∧
      sampleMem.rects 11 = some ⟨0, 0, 16384, 65536⟩ ∧
      CGIWICBitmap.Lock Target.x64 b sampleMem (some 11) 0 true
        = .done (.S_OK, some l, sampleMem) ∧
      l.GetDataPointer Target.x64 sampleMem true true = .done (.S_OK, some (0, some 5)) ∧
      (65536 : Int) * ((65536 : Nat) : Int) = 4294967296 :=
  ⟨_, _, rfl, rfl, rfl, rfl, rfl, by decide⟩

/-- C7, amended: for every lock (texture- or buffer-backed) whose rectangle is alive,
`GetDataPointer` with non-null output slots succeeds and reports the product
`lockedRect.Height * bytesPerRow` reduced modulo `2^32` (the value that fits the
`UINT` slot), together with the data pointer recorded at construction. -/
theorem GetDataPointer_size (t : Target) (ht : t.ok) (l : CGIWICBitmapLock) (mem : Memory)
    (a : Nat) (r : WICRect) (hl : l.m_locked_rect = some a) (hr : mem.rects a = some r) :
    l.GetDataPointer t mem true true
      = .done (.S_OK, some (toU32 (r.Height * l.m_bytesPerRow), l.m_dataBuffer)) := by
  simp [CGIWICBitmapLock.GetDataPointer, hl, hr, size_product_eq t (le_trans ht.1 ht.2)]

/-- The lock of the buffer-backed bitmap of width 4 and height 2 at 32 bits per pixel
over the caller's full rectangle reports the size 32. -/
theorem GetDataPointer_size_witness :
    ∃ l, CGIWICBitmap.Lock Target.x86 sampleBitmap sampleMem (some 8) 0 true
        = .done (.S_OK, some l, sampleMem) ∧
      l.GetDataPointer Target.x86 sampleMem true true = .done (.S_OK, some (32, some 5)) :=
  ⟨_, rfl, GetDataPointer_size Target.x86 (by decide) _ sampleMem 8 ⟨0, 0, 4, 2⟩ rfl rfl⟩

/-! ## C8 and C9: what is fixed at construction -/

/-- What the buffer constructor leaves in the members when it returns. -/
theorem mkBuffer_done (t : Target) (properties : GUID → Option Nat) (mem : Memory) (data : Ptr)
    (pixelFormat : GUID) (height width : Nat) (b : CGIWICBitmap) (mem1 : Memory)
    (h : CGIWICBitmap.mkBuffer t properties mem data pixelFormat height width = .done (b, mem1)) :
    ∃ bpp, properties pixelFormat = some bpp ∧ b.m_pixelFormat = pixelFormat ∧
      b.m_height = height ∧ b.m_width = width ∧ b.m_texture = none ∧
      b.m_bytesPerRow = ((bpp >>> 3) * width) % 2 ^ t.mulBits % 2 ^ t.sizeBits := by
  unfold CGIWICBitmap.mkBuffer at h
  simp only [CGIWICBitmap.Init] at h
  cases hp : properties pixelFormat with
  | none => simp only [hp] at h; cases h
  | some bpp =>
    simp only [hp] at h
    cases data with
    | none => cases h; exact ⟨bpp, rfl, rfl, rfl, rfl, rfl, rfl⟩
    | some a => cases h; exact ⟨bpp, rfl, rfl, rfl, rfl, rfl, rfl⟩

/-- One operation changes no member of the bitmap other than the resolution. -/
theorem step_bitmap (t : Target) (op : Op) (b : CGIWICBitmap) (mem : Memory)
    (b' : CGIWICBitmap) (mem' : Memory) (h : step t op (b, mem) = .done (b', mem')) :
    ∃ x y, b' = { b with m_dpiX := x, m_dpiY := y } := by
  cases op with
  | Lock region flags outLock =>
    simp only [step] at h
    split at h
    · cases h; exact ⟨_, _, rfl⟩
    · cases h
    · cases h
  | CopyPixels copyRect stride bufferSize buffer =>
    simp only [step] at h
    split at h
    · cases h; exact ⟨_, _, rfl⟩
    · cases h
    · cases h
  | SetPalette p => cases h; exact ⟨_, _, rfl⟩
  | SetResolution x y => cases h; exact ⟨_, _, rfl⟩
  | GetSize _ _ => cases h; exact ⟨_, _, rfl⟩
  | GetPixelFormat _ => cases h; exact ⟨_, _, rfl⟩
  | GetResolution _ _ => cases h; exact ⟨_, _, rfl⟩
  | CopyPalette p => cases h; exact ⟨_, _, rfl⟩
  | DisplayTexture => cases h; exact ⟨_, _, rfl⟩
  | caller f => cases h; exact ⟨_, _, rfl⟩

/-- A sequence of operations changes no member of the bitmap other than the
resolution. -/
theorem run_bitmap (t : Target) (ops : List Op) (b : CGIWICBitmap) (mem : Memory)
    (b' : CGIWICBitmap) (mem' : Memory) (h : run t ops (b, mem) = .done (b', mem')) :
    ∃ x y, b' = { b with m_dpiX := x, m_dpiY := y } := by
  induction ops generalizing b mem with
  | nil => simp only [run] at h; cases h; exact ⟨_, _, rfl⟩
  | cons op ops ih =>
    simp only [run] at h
    split at h
    · rename_i s1 hs
      obtain ⟨b1, m1⟩ := s1
      obtain ⟨x1, y1, e1⟩ := step_bitmap t op b mem b1 m1 hs
      obtain ⟨x, y, e⟩ := ih b1 m1 h
      exact ⟨x, y, by rw [e, e1]⟩
    · cases h
    · cases h

/-- The lock that `Lock` hands out for a bitmap without texture records the stride,
the data pointer and the pixel format of the bitmap. -/
theorem Lock_done_buffer_lock (t : Target) (b : CGIWICBitmap) (mem : Memory) (region : Ptr)
    (flags : Nat) (o : Bool) (hr : HRESULT) (l : CGIWICBitmapLock) (mem1 : Memory)
    (hx : b.m_texture = none)
    (h : CGIWICBitmap.Lock t b mem region flags o = .done (hr, some l, mem1)) :
    l.m_bytesPerRow = b.m_bytesPerRow ∧ l.m_dataBuffer = b.m_dataBuffer ∧
      l.m_pixelFormat = b.m_pixelFormat ∧ l.m_texture = none := by
  unfold CGIWICBitmap.Lock at h
  simp only [CGIWICBitmap.makeLock, hx] at h
  split at h
  · cases h
  · split at h
    · cases h; exact ⟨rfl, rfl, rfl, rfl⟩
    · split at h
      · cases h
      · split at h
        · cases h
        · split at h
          · cases h
          · cases h; exact ⟨rfl, rfl, rfl, rfl⟩

/-- C8, as stated, fails.  The buffer-backed bitmap of width 1073741824 at 32 bits per
pixel has `(bpp / 8) * w = 4 * 1073741824 = 4294967296`, and the lock that `Lock`
returns reports the stride 0 through the `UINT` slot of `GetStride`. -/
theorem GetStride_wraps :
    ∃ b l mem1, CGIWICBitmap.mkBuffer Target.x64 sampleProps sampleMem (some 5) 1 1 1073741824
        = .done (b, sampleMem) ∧
      sampleProps 1 = some 32 ∧
      CGIWICBitmap.Lock Target.x64 b sampleMem none 0 true = .done (.S_OK, some l, mem1) ∧
      l.GetStride true = (.S_OK, some 0) ∧ 32 / 8 * 1073741824 = 4294967296 :=
  ⟨_, _, _, rfl, rfl, rfl, rfl, rfl⟩

/-- C8, amended: for every buffer-backed bitmap constructed with width `w` and a pixel
format whose property-table entry reports `bpp` bits per pixel, after every sequence
of operations every lock returned by `Lock` reports `GetStride` equal to
`(bpp / 8) * w` reduced modulo `2^32` (the value that fits the `UINT` slot): the
value fixed at construction, never recomputed. -/
theorem GetStride_of_buffer_bitmap (t : Target) (ht : t.ok) (properties : GUID → Option Nat)
    (mem : Memory) (data : Ptr) (pixelFormat : GUID) (height width bpp : Nat)
    (b : CGIWICBitmap) (mem1 : Memory) (hp : properties pixelFormat = some bpp)
    (hc : CGIWICBitmap.mkBuffer t properties mem data pixelFormat height width = .done (b, mem1))
    (ops : List Op) (b' : CGIWICBitmap) (mem2 : Memory)
    (hrun : run t ops (b, mem1) = .done (b', mem2))
    (region : Ptr) (flags : Nat) (l : CGIWICBitmapLock) (mem3 : Memory)
    (hL : CGIWICBitmap.Lock t b' mem2 region flags true = .done (.S_OK, some l, mem3)) :
    l.GetStride true = (.S_OK, some ((bpp / 8 * width) % 4294967296)) := by
  obtain ⟨bpp', hp', -, -, -, hx, hbpr⟩ := mkBuffer_done _ _ _ _ _ _ _ _ _ hc
  rw [hp] at hp'
  cases hp'
  obtain ⟨x, y, e⟩ := run_bitmap t ops b mem1 b' mem2 hrun
  have hx' : b'.m_texture = none := by rw [e]; exact hx
  have hb' : b'.m_bytesPerRow = b.m_bytesPerRow := by rw [e]
  obtain ⟨h1, -⟩ := Lock_done_buffer_lock t b' mem2 region flags true _ l mem3 hx' hL
  simp only [CGIWICBitmapLock.GetStride, Bool.not_true, Bool.false_eq_true, if_false, h1, hb', hbpr]
  rw [Nat.mod_mod_of_dvd _ (pow32_dvd _ (le_trans ht.1 ht.2)),
    Nat.mod_mod_of_dvd _ (pow32_dvd _ ht.1), Nat.shiftRight_eq_div_pow]

/-- Width 4 and 32 bits per pixel give the stride 16, also after `SetResolution`,
`Lock` and `CopyPixels`. -/
theorem GetStride_of_buffer_bitmap_witness :
    (CGIWICBitmapLock.mkBuffer (some 5) (some 1000) 16 1).GetStride true = (.S_OK, some 16) :=
  GetStride_of_buffer_bitmap Target.x86 (by decide) sampleProps sampleMem (some 5) 1 2 4 32
    _ _ rfl rfl [.SetResolution 0 0, .Lock (some 8) 0 true, .CopyPixels (some 8) 16 32 (some 6)]
    _ _ rfl none 0 _ _ rfl

/-- C9: for every buffer-backed bitmap constructed with `(format, height, width)` and
every finite sequence of operations applied to it afterwards (with any arguments,
and any action of the caller on the memory in between), `GetSize` with non-null
slots returns exactly `(width, height)`, in that order, and `GetPixelFormat` returns
exactly `format`. -/
theorem GetSize_GetPixelFormat_invariant (t : Target) (properties : GUID → Option Nat)
    (mem : Memory) (data : Ptr) (pixelFormat : GUID) (height width : Nat)
    (b : CGIWICBitmap) (mem1 : Memory)
    (hc : CGIWICBitmap.mkBuffer t properties mem data pixelFormat height width = .done (b, mem1))
    (ops : List Op) (b' : CGIWICBitmap) (mem2 : Memory)
    (hrun : run t ops (b, mem1) = .done (b', mem2)) :
    b'.GetSize true true = (.S_OK, some (width, height)) ∧
      b'.GetPixelFormat true = (.S_OK, some pixelFormat) := by
  obtain ⟨bpp, -, hf, hh, hw, -, -⟩ := mkBuffer_done _ _ _ _ _ _ _ _ _ hc
  obtain ⟨x, y, e⟩ := run_bitmap t ops b mem1 b' mem2 hrun
  subst e
  simp [CGIWICBitmap.GetSize, CGIWICBitmap.GetPixelFormat, hf, hh, hw]

/-- The bitmap of width 4 and height 2 after a sequence with every operation in it. -/
theorem GetSize_GetPixelFormat_invariant_witness :
    ({ sampleBitmap with m_dpiX := 7, m_dpiY := 8 } : CGIWICBitmap).GetSize true true
        = (.S_OK, some (4, 2)) ∧
      ({ sampleBitmap with m_dpiX := 7, m_dpiY := 8 } : CGIWICBitmap).GetPixelFormat true
        = (.S_OK, some 1) :=
  GetSize_GetPixelFormat_invariant Target.x86 sampleProps sampleMem (some 5) 1 2 4 _ _ rfl
    [.Lock none 0 true, .Lock (some 9) 3 true, .CopyPixels (some 8) 16 32 (some 6),
     .CopyPixels (some 8) 16 31 (some 6), .SetResolution 7 8, .SetPalette none,
     .CopyPalette (some 3), .GetResolution true true, .DisplayTexture, .GetSize true false,
     .GetPixelFormat true, .caller (fun m => { m with bytes := fun _ => none })]
    _ _ rfl

/-! ## C10: the texture primitives invoked by a lock -/

/-- C10: constructing a texture-backed lock invokes the `Lock` of its texture exactly
once and no `Unlock`, and touches no other texture; destroying that lock, in whatever
memory, invokes the `Unlock` of its texture exactly once and no `Lock`, and touches no
other texture; constructing a buffer-backed lock involves no texture, and destroying
it leaves the memory, all textures included, as it is. -/
theorem lock_texture_invocations (t : Target) (mem : Memory) (x : Nat) (region : Ptr)
    (pixelFormat : GUID) (data : Ptr) (bytesPerRow : Nat) :
    (∃ l mem1, CGIWICBitmapLock.mkTexture t mem (some x) region pixelFormat = .done (l, mem1) ∧
        (mem1.textures x).locks = (mem.textures x).locks + 1 ∧
        (mem1.textures x).unlocks = (mem.textures x).unlocks ∧
        (∀ y, y = x ∨ mem1.textures y = mem.textures y) ∧
        ∀ mem2 : Memory,
          ((l.destroy mem2).textures x).unlocks = (mem2.textures x).unlocks + 1 ∧
          ((l.destroy mem2).textures x).locks = (mem2.textures x).locks ∧
          ∀ y, y = x ∨ (l.destroy mem2).textures y = mem2.textures y) ∧
      (CGIWICBitmapLock.mkBuffer data region bytesPerRow pixelFormat).m_texture = none ∧
      ∀ mem2 : Memory,
        (CGIWICBitmapLock.mkBuffer data region bytesPerRow pixelFormat).destroy mem2 = mem2 := by
  refine ⟨⟨_, _, rfl, ?_, ?_, ?_, fun mem2 => ⟨?_, ?_, ?_⟩⟩, rfl, fun mem2 => rfl⟩
  · simp [setAt, Texture.Lock]
  · simp [setAt, Texture.Lock]
  · intro y
    by_cases hy : y = x
    · exact Or.inl hy
    · exact Or.inr (by simp [setAt, hy])
  · simp [CGIWICBitmapLock.destroy, setAt, Texture.Unlock]
  · simp [CGIWICBitmapLock.destroy, setAt, Texture.Unlock]
  · intro y
    by_cases hy : y = x
    · exact Or.inl hy
    · exact Or.inr (by simp [CGIWICBitmapLock.destroy, setAt, hy])

/-! ## C11: null output slots of the bitmap accessors -/

/-- C11, as stated, fails: with a null output slot `GetSize` and `GetPixelFormat` of
the bitmap return `E_POINTER`, which is not the invalid-argument status. -/
theorem GetSize_null_slot_not_invalidarg :
    sampleBitmap.GetSize false true = (.E_POINTER, none) ∧
      sampleBitmap.GetSize true false = (.E_POINTER, none) ∧
      sampleBitmap.GetPixelFormat false = (.E_POINTER, none) ∧
      HRESULT.E_POINTER ≠ HRESULT.E_INVALIDARG :=
  ⟨rfl, rfl, rfl, by decide⟩

/-- C11, amended: `GetSize` of the bitmap called with a null width slot or a null
height slot, and `GetPixelFormat` called with a null output slot, fail with the
null-pointer status `E_POINTER` and store nothing. -/
theorem GetSize_GetPixelFormat_null_slot (b : CGIWICBitmap) (width height : Bool) :
    b.GetSize false height = (.E_POINTER, none) ∧ b.GetSize width false = (.E_POINTER, none) ∧
      b.GetPixelFormat false = (.E_POINTER, none) := by
  refine ⟨rfl, ?_, rfl⟩
  cases width <;> rfl

/-! ## C12: the storage mode -/

/-- What the buffer constructor leaves in the storage members and in the memory when
it returns. -/
theorem mkBuffer_storage (t : Target) (properties : GUID → Option Nat) (mem : Memory) (data : Ptr)
    (pixelFormat : GUID) (height width : Nat) (b : CGIWICBitmap) (mem1 : Memory)
    (h : CGIWICBitmap.mkBuffer t properties mem data pixelFormat height width = .done (b, mem1)) :
    b.m_texture = none ∧ (b.m_freeData = true ↔ data = none) ∧
      (data = none →
        b.m_dataBuffer = some mem.heapTop ∧
        mem1.bytes = setAt mem.bytes mem.heapTop
          (some ((List.range ((height * b.m_bytesPerRow) % 2 ^ t.sizeBits)).map mem.junk)) ∧
        mem1.freed = mem.freed) ∧
      (data ≠ none → b.m_dataBuffer = data ∧ mem1 = mem) := by
  unfold CGIWICBitmap.mkBuffer at h
  simp only [CGIWICBitmap.Init] at h
  cases hp : properties pixelFormat with
  | none => simp only [hp] at h; cases h
  | some bpp =>
    simp only [hp] at h
    cases data with
    | none => cases h; exact ⟨rfl, by simp, fun _ => ⟨rfl, rfl, rfl⟩, fun hn => absurd rfl hn⟩
    | some a => cases h; exact ⟨rfl, by simp, fun hn => (by cases hn), fun _ => ⟨rfl, rfl⟩⟩

/-- C12, as stated, fails: the texture constructor called with an empty texture handle
produces a bitmap with no texture handle and no data buffer. -/
theorem mkTexture_empty_handle_no_storage :
    (CGIWICBitmap.mkTexture none 1 2 4 0).m_texture = none ∧
      (CGIWICBitmap.mkTexture none 1 2 4 0).m_dataBuffer = none ∧
      ((CGIWICBitmap.mkTexture none 1 2 4 0).m_texture.isSome
        != (CGIWICBitmap.mkTexture none 1 2 4 0).m_dataBuffer.isSome) = false :=
  ⟨rfl, rfl, rfl⟩

/-- C12, amended: for every bitmap produced by the texture constructor with a
non-empty texture handle, or by the buffer constructor with a null or non-null data
pointer, exactly one of {texture handle present, data buffer present} holds, and
after every sequence of operations of the bitmap the two members are the ones the
constructor set, so exactly one keeps holding with the same storage mode. -/
theorem storage_mode_invariant (t : Target) (ops : List Op) (b0 b' : CGIWICBitmap)
    (mem mem' : Memory)
    (hctor : (∃ x pixelFormat height width uninit,
                b0 = CGIWICBitmap.mkTexture (some x) pixelFormat height width uninit) ∨
             (∃ properties mem0 data pixelFormat height width,
                CGIWICBitmap.mkBuffer t properties mem0 data pixelFormat height width
                  = .done (b0, mem)))
    (hrun : run t ops (b0, mem) = .done (b', mem')) :
    (b'.m_texture.isSome != b'.m_dataBuffer.isSome) = true ∧
      b'.m_texture = b0.m_texture ∧ b'.m_dataBuffer = b0.m_dataBuffer := by
  obtain ⟨x, y, e⟩ := run_bitmap t ops b0 mem b' mem' hrun
  have e1 : b'.m_texture = b0.m_texture := by rw [e]
  have e2 : b'.m_dataBuffer = b0.m_dataBuffer := by rw [e]
  refine ⟨?_, e1, e2⟩
  rw [e1, e2]
  rcases hctor with ⟨x, pf, h, w, u, rfl⟩ | ⟨props, mem0, data, pf, h, w, hc⟩
  · rfl
  · obtain ⟨h1, -, h3, h4⟩ := mkBuffer_storage _ _ _ _ _ _ _ _ _ hc
    cases data with
    | none => rw [h1, (h3 rfl).1]; rfl
    | some a => rw [h1, (h4 (by simp)).1]; rfl

/-- The buffer-backed bitmap of width 4 and height 2 after `SetResolution`, `Lock`
and `CopyPixels`: no texture, the data buffer at address 5. -/
theorem storage_mode_invariant_witness :
    (({ sampleBitmap with m_dpiX := 7, m_dpiY := 8 } : CGIWICBitmap).m_texture.isSome
        != ({ sampleBitmap with m_dpiX := 7, m_dpiY := 8 } : CGIWICBitmap).m_dataBuffer.isSome)
        = true ∧
      ({ sampleBitmap with m_dpiX := 7, m_dpiY := 8 } : CGIWICBitmap).m_texture
        = sampleBitmap.m_texture ∧
      ({ sampleBitmap with m_dpiX := 7, m_dpiY := 8 } : CGIWICBitmap).m_dataBuffer
        = sampleBitmap.m_dataBuffer :=
  storage_mode_invariant Target.x86
    [.SetResolution 7 8, .Lock none 0 true, .CopyPixels (some 8) 16 32 (some 6)]
    sampleBitmap _ sampleMem _
    (Or.inr ⟨sampleProps, sampleMem, some 5, 1, 2, 4, rfl⟩) rfl

/-! ## C13: ownership of the buffer -/

/-- Teardown of a bitmap that does not own its buffer does nothing, however often. -/
theorem teardown_unowned (n : Nat) (b : CGIWICBitmap) (mem : Memory)
    (h : b.m_freeData = false) : teardown n (b, mem) = .done (b, mem) := by
  induction n with
  | zero => rfl
  | succ n ih => simp only [teardown, CGIWICBitmap.destroy, h]; simpa using ih

/-- Teardown of a bitmap that owns a live buffer frees it at the first invocation and
does nothing afterwards. -/
theorem teardown_owned (n : Nat) (b : CGIWICBitmap) (mem : Memory) (a : Nat) (arr : List Nat)
    (hf : b.m_freeData = true) (hd : b.m_dataBuffer = some a) (ha : mem.bytes a = some arr) :
    teardown (n + 1) (b, mem) =
      .done ({ b with m_dataBuffer := none, m_freeData := false },
             { mem with bytes := setAt mem.bytes a none, freed := a :: mem.freed }) := by
  simp only [teardown, CGIWICBitmap.destroy, hf, hd, ha, if_true]
  exact teardown_unowned n _ _ rfl

/-- C13, as stated, fails.  On a target with a 32-bit `size_t`, the buffer constructor
called with a null data pointer, height 65536 and width 16384 at 32 bits per pixel
sets `m_bytesPerRow = 65536` and allocates `m_height * m_bytesPerRow` evaluated in
`size_t`, which is 0 bytes and not `65536 * 65536 = 4294967296` bytes. -/
theorem mkBuffer_allocation_wraps :
    ∃ b mem1, CGIWICBitmap.mkBuffer Target.x86 sampleProps sampleMem none 1 65536 16384
        = .done (b, mem1) ∧
      b.m_freeData = true ∧ b.m_height = 65536 ∧ b.m_bytesPerRow = 65536 ∧
      b.m_dataBuffer = some 2000 ∧ mem1.bytes 2000 = some [] ∧
      65536 * 65536 = 4294967296 :=
  ⟨_, _, rfl, rfl, rfl, rfl, rfl, rfl, rfl⟩

/-- C13, amended: a buffer-backed bitmap is marked as owning its buffer if and only if
it was constructed with a null data pointer, and then the allocation has
`height * bytesPerRow` bytes, the product being reduced modulo `2 ^ sizeBits` (it is
evaluated in `size_t`).  After any sequence of operations, any positive number of
invocations of the teardown logic frees the buffer exactly once when it is owned (and
still allocated) and never when it was supplied by the caller, and leaves the bitmap
not owning; teardown of a bitmap made by the texture constructor frees nothing. -/
theorem buffer_ownership (t : Target) (properties : GUID → Option Nat) (mem : Memory) (data : Ptr)
    (pixelFormat : GUID) (height width : Nat) (b : CGIWICBitmap) (mem1 : Memory)
    (hc : CGIWICBitmap.mkBuffer t properties mem data pixelFormat height width = .done (b, mem1))
    (ops : List Op) (b' : CGIWICBitmap) (mem2 : Memory)
    (hrun : run t ops (b, mem1) = .done (b', mem2))
    (halive : ∀ a, b.m_freeData = true → b.m_dataBuffer = some a → (mem2.bytes a).isSome = true)
    (n : Nat) :
    (b.m_freeData = true ↔ data = none) ∧
      (data = none → ∃ a arr, b.m_dataBuffer = some a ∧ mem1.bytes a = some arr ∧
        arr.length = (height * b.m_bytesPerRow) % 2 ^ t.sizeBits) ∧
      (∃ b3 mem3, teardown (n + 1) (b', mem2) = .done (b3, mem3) ∧ b3.m_freeData = false ∧
        mem3.freed = (if b.m_freeData then b.m_dataBuffer.toList else []) ++ mem2.freed) ∧
      ∀ (texture : Option Nat) (pf h w uninit k : Nat) (m : Memory),
        teardown k (CGIWICBitmap.mkTexture texture pf h w uninit, m)
          = .done (CGIWICBitmap.mkTexture texture pf h w uninit, m) := by
  obtain ⟨-, h2, h3, h4⟩ := mkBuffer_storage _ _ _ _ _ _ _ _ _ hc
  obtain ⟨x, y, e⟩ := run_bitmap t ops b mem1 b' mem2 hrun
  refine ⟨h2, ?_, ?_, fun texture pf h w uninit k m => teardown_unowned k _ m rfl⟩
  · intro hn
    obtain ⟨e1, e2, -⟩ := h3 hn
    exact ⟨_, (List.range ((height * b.m_bytesPerRow) % 2 ^ t.sizeBits)).map mem.junk, e1,
      by rw [e2]; simp [setAt], by simp⟩
  · cases hf : b.m_freeData with
    | false =>
      refine ⟨b', mem2, teardown_unowned _ _ _ (by rw [e]; exact hf), by rw [e]; exact hf,
        by simp⟩
    | true =>
      obtain ⟨e1, -, -⟩ := h3 (h2.mp hf)
      have hal := halive _ hf e1
      cases hb : mem2.bytes mem.heapTop with
      | none => rw [hb] at hal; cases hal
      | some arr =>
        refine ⟨_, _, teardown_owned n b' mem2 mem.heapTop arr (by rw [e]; exact hf)
          (by rw [e]; exact e1) hb, rfl, ?_⟩
        simp [e1]

/-! ## C14: the palette methods -/

/-- C14: for every bitmap and every palette argument (null included), `SetPalette` and
`CopyPalette` return `E_NOTIMPL` and leave every member of the bitmap as it is; as
operations on the bitmap and the memory they change neither, so the contents of the
buffer stay as well. -/
theorem palette_methods_frame (t : Target) (b : CGIWICBitmap) (mem : Memory) (palette : Ptr) :
    b.SetPalette palette = (.E_NOTIMPL, b) ∧ b.CopyPalette palette = (.E_NOTIMPL, b) ∧
      step t (.SetPalette palette) (b, mem) = .done (b, mem) ∧
      step t (.CopyPalette palette) (b, mem) = .done (b, mem) :=
  ⟨rfl, rfl, rfl, rfl⟩

/-! ## C15: the rectangle of a lock -/

/-- C15 at its failing inputs.  The lock that `Lock` returns for the caller's
rectangle `{0, 0, 4, 2}` at address 8 reports the size (4, 2) and the data size 32
while the rectangle is as it was; after the caller stores `{0, 0, 7, 9}` into the
same object the lock reports (7, 9) and the data size 144, and after the caller's
object has ended its lifetime `GetSize` of the lock is undefined.  The lock made for
an omitted region points to the expired rectangle of `Lock` from the start. -/
theorem lock_rect_not_captured :
    ∃ l, CGIWICBitmap.Lock Target.x86 sampleBitmap sampleMem (some 8) 0 true
        = .done (.S_OK, some l, sampleMem) ∧
      sampleMem.rects 8 = some ⟨0, 0, 4, 2⟩ ∧
      l.GetSize sampleMem true true = .done (.S_OK, some (4, 2)) ∧
      l.GetDataPointer Target.x86 sampleMem true true = .done (.S_OK, some (32, some 5)) ∧
      l.GetSize { sampleMem with rects := setAt sampleMem.rects 8 (some ⟨0, 0, 7, 9⟩) } true true
        = .done (.S_OK, some (7, 9)) ∧
      l.GetDataPointer Target.x86
          { sampleMem with rects := setAt sampleMem.rects 8 (some ⟨0, 0, 7, 9⟩) } true true
        = .done (.S_OK, some (144, some 5)) ∧
      l.GetSize { sampleMem with rects := setAt sampleMem.rects 8 none } true true
        = .undefined ∧
      ∃ l0 mem1, CGIWICBitmap.Lock Target.x86 sampleBitmap sampleMem none 0 true
          = .done (.S_OK, some l0, mem1) ∧
        l0.GetSize mem1 true true = .undefined :=
  ⟨_, rfl, rfl, rfl, rfl, rfl, rfl, rfl, _, _, rfl, rfl⟩

/-! ## The ways in which `Lock` and `CopyPixels` return -/

/-- With both output slots present, the pointer that `GetDataPointer` hands out is the
data pointer of the lock. -/
theorem GetDataPointer_done_src (t : Target) (l : CGIWICBitmapLock) (mem : Memory)
    (hr : HRESULT) (o : Option (Nat × Ptr))
    (h : l.GetDataPointer t mem true true = .done (hr, o)) :
    hr = .S_OK ∧ ∃ n, o = some (n, l.m_dataBuffer) := by
  unfold CGIWICBitmapLock.GetDataPointer at h
  simp only [Bool.not_true, Bool.false_eq_true, if_false] at h
  split at h
  · cases h
  · split at h
    · cases h
    · cases h; exact ⟨rfl, _, rfl⟩

/-- A call of `Lock` with an output slot either fails, hands out no lock and leaves the
memory as it is, or returns `S_OK` with a lock. -/
theorem Lock_done_cases (t : Target) (b : CGIWICBitmap) (mem : Memory) (region : Ptr)
    (flags : Nat) (hr : HRESULT) (lo : Option CGIWICBitmapLock) (mem1 : Memory)
    (h : CGIWICBitmap.Lock t b mem region flags true = .done (hr, lo, mem1)) :
    (hr.failed = true ∧ lo = none ∧ mem1 = mem) ∨ (hr = .S_OK ∧ ∃ l, lo = some l) := by
  unfold CGIWICBitmap.Lock at h
  simp only [Bool.not_true, Bool.false_eq_true, if_false] at h
  split at h
  · obtain ⟨l', m', e, -⟩ := makeLock_spec t b
      { mem with rects := setAt (setAt mem.rects mem.stackTop
                    (some ⟨0, 0, toI32 b.m_width, toI32 b.m_height⟩)) mem.stackTop none }
      (some mem.stackTop)
    simp only [e] at h
    cases h
    exact Or.inr ⟨rfl, _, rfl⟩
  · split at h
    · cases h
    · split at h
      · cases h; exact Or.inl ⟨rfl, rfl, rfl⟩
      · split at h
        · cases h; exact Or.inl ⟨rfl, rfl, rfl⟩
        · rename_i a _ _ _ _ _
          obtain ⟨l', m', e, -⟩ := makeLock_spec t b mem (some a)
          rw [e] at h
          cases h
          exact Or.inr ⟨rfl, _, rfl⟩

/-- The ways in which a call of `CopyPixels` returns. -/
theorem CopyPixels_done_cases (t : Target) (b : CGIWICBitmap) (mem : Memory)
    (copyRect : Ptr) (stride bufferSize : Nat) (buffer : Ptr) (hr : HRESULT) (mem' : Memory)
    (h : CGIWICBitmap.CopyPixels t b mem copyRect stride bufferSize buffer = .done (hr, mem')) :
    (buffer = none ∧ hr = .E_POINTER ∧ mem' = mem) ∨
    (buffer ≠ none ∧ hr.failed = true ∧ mem' = mem ∧
      CGIWICBitmap.Lock t b mem copyRect 0 true = .done (hr, none, mem)) ∨
    (∃ d l m1 n, buffer = some d ∧
      CGIWICBitmap.Lock t b mem copyRect 0 true = .done (.S_OK, some l, m1) ∧
      l.GetDataPointer t m1 true true = .done (.S_OK, some (n, l.m_dataBuffer)) ∧
      ((bufferSize < n ∧ hr = .E_INVALIDARG ∧ mem' = l.destroy m1) ∨
       (n ≤ bufferSize ∧ ∃ err m2,
          memcpy_s m1 (some d) bufferSize l.m_dataBuffer n = .done (err, m2) ∧
          mem' = l.destroy m2 ∧ ((err ≠ 0 ∧ hr = .E_UNEXPECTED) ∨ (err = 0 ∧ hr = .S_OK))))) := by
  unfold CGIWICBitmap.CopyPixels at h
  split at h
  · cases h; exact Or.inl ⟨rfl, rfl, rfl⟩
  · rename_i d
    split at h
    · cases h
    · cases h
    · rename_i hr1 mem1 hL
      rcases Lock_done_cases t b mem copyRect 0 _ _ _ hL with ⟨hf, -, hm⟩ | ⟨hs, l, hl⟩
      · subst hm
        simp only [hf, if_true] at h
        cases h
        exact Or.inr (Or.inl ⟨by simp, hf, rfl, hL⟩)
      · cases hl
    · rename_i hr1 lock mem1 hL
      rcases Lock_done_cases t b mem copyRect 0 _ _ _ hL with ⟨-, hn, -⟩ | ⟨hs, -⟩
      · cases hn
      · subst hs
        simp only [HRESULT.failed, Bool.false_eq_true, if_false] at h
        split at h
        · cases h
        · cases h
        · rename_i hr2 hg
          obtain ⟨-, n, hn⟩ := GetDataPointer_done_src t lock mem1 _ _ hg
          cases hn
        · rename_i hr2 n src hg
          obtain ⟨hs2, n', hn⟩ := GetDataPointer_done_src t lock mem1 _ _ hg
          cases hn
          subst hs2
          simp only [HRESULT.failed, Bool.false_eq_true, if_false] at h
          refine Or.inr (Or.inr ⟨d, lock, mem1, n, rfl, hL, hg, ?_⟩)
          split at h
          · rename_i hgt
            cases h
            exact Or.inl ⟨hgt, rfl, rfl⟩
          · rename_i hle
            split at h
            · cases h
            · cases h
            · rename_i err m2 hcp
              refine Or.inr ⟨by omega, err, m2, hcp, ?_⟩
              split at h
              · rename_i herr
                cases h; exact ⟨rfl, Or.inl ⟨herr, rfl⟩⟩
              · rename_i herr
                cases h; exact ⟨rfl, Or.inr ⟨by simpa using herr, rfl⟩⟩

/-! ## C13, continued: a bitmap that owns its buffer -/

/-- The bitmap of width 4 and height 2 that allocated its 32 bytes at address 2000:
three invocations of the teardown logic free that array once. -/
theorem buffer_ownership_witness :
    ∃ b3 mem3, teardown 3 (sampleOwnedBitmap, sampleOwnedMem) = .done (b3, mem3) ∧
      b3.m_freeData = false ∧ mem3.freed = [2000] :=
  (buffer_ownership Target.x86 sampleProps sampleMem none 1 2 4 sampleOwnedBitmap
    sampleOwnedMem rfl [] sampleOwnedBitmap sampleOwnedMem rfl
    (fun a _ h => by cases h; rfl) 2).2.2.1

/-! ## C16: texture invocations during `CopyPixels` -/

/-- When `memcpy_s` returns, the textures, rectangles and the record of freed arrays
are as before. -/
theorem memcpy_s_frame (mem : Memory) (dest : Ptr) (destSize : Nat) (src : Ptr)
    (count err : Nat) (mem2 : Memory)
    (h : memcpy_s mem dest destSize src count = .done (err, mem2)) :
    mem2.textures = mem.textures ∧ mem2.rects = mem.rects ∧ mem2.freed = mem.freed ∧
      mem2.stackTop = mem.stackTop := by
  unfold memcpy_s at h
  split at h
  · cases h; exact ⟨rfl, rfl, rfl, rfl⟩
  · split at h
    · cases h; exact ⟨rfl, rfl, rfl, rfl⟩
    · split at h
      · cases h
      · split at h
        · split at h
          · cases h
          · cases h; exact ⟨rfl, rfl, rfl, rfl⟩
        · split at h
          · cases h
          · split at h
            · cases h
            · split at h
              · cases h
              · cases h; exact ⟨rfl, rfl, rfl, rfl⟩

/-- The lock that `Lock` hands out for a bitmap with a texture holds that texture, and
the texture has counted one more `Lock`; the other textures are as before. -/
theorem Lock_done_texture (t : Target) (b : CGIWICBitmap) (mem : Memory) (region : Ptr)
    (flags : Nat) (x : Nat) (l : CGIWICBitmapLock) (mem1 : Memory)
    (hx : b.m_texture = some x)
    (h : CGIWICBitmap.Lock t b mem region flags true = .done (.S_OK, some l, mem1)) :
    l.m_texture = some x ∧ mem1.textures = setAt mem.textures x (mem.textures x).Lock.2 := by
  unfold CGIWICBitmap.Lock at h
  simp only [CGIWICBitmap.makeLock, hx, CGIWICBitmapLock.mkTexture, Bool.not_true,
    Bool.false_eq_true, if_false] at h
  split at h
  · cases h; exact ⟨rfl, rfl⟩
  · split at h
    · cases h
    · split at h
      · cases h
      · split at h
        · cases h
        · cases h; exact ⟨rfl, rfl⟩

/-- C16: for every texture-backed bitmap and every `CopyPixels` call that returns a
status (whichever), the texture of the bitmap has counted as many `Unlock` as `Lock`
invocations during the call, namely `k` of each, and no other texture was touched;
`k` is 0 when the destination is null or `Lock` rejects `copyRect`, so that no lock
is created, and 1 when `Lock` succeeded. -/
theorem CopyPixels_lock_unlock_balance (t : Target) (b : CGIWICBitmap) (mem : Memory)
    (copyRect : Ptr) (stride bufferSize : Nat) (buffer : Ptr) (hr : HRESULT) (mem' : Memory)
    (x : Nat) (hx : b.m_texture = some x)
    (h : CGIWICBitmap.CopyPixels t b mem copyRect stride bufferSize buffer = .done (hr, mem')) :
    ∃ k, (mem'.textures x).locks = (mem.textures x).locks + k ∧
      (mem'.textures x).unlocks = (mem.textures x).unlocks + k ∧
      (∀ y, y = x ∨ mem'.textures y = mem.textures y) ∧
      (((buffer = none ∨ CGIWICBitmap.Lock t b mem copyRect 0 true = .done (hr, none, mem)) ∧
          k = 0) ∨
        ((∃ l m1, CGIWICBitmap.Lock t b mem copyRect 0 true = .done (.S_OK, some l, m1)) ∧
          k = 1)) := by
  have key : ∀ (l : CGIWICBitmapLock) (m1 m2 : Memory), l.m_texture = some x →
      m1.textures = setAt mem.textures x (mem.textures x).Lock.2 →
      m2.textures = m1.textures →
      ((l.destroy m2).textures x).locks = (mem.textures x).locks + 1 ∧
      ((l.destroy m2).textures x).unlocks = (mem.textures x).unlocks + 1 ∧
      ∀ y, y = x ∨ (l.destroy m2).textures y = mem.textures y := by
    intro l m1 m2 hl h1 h2
    simp only [CGIWICBitmapLock.destroy, hl, h2, h1]
    refine ⟨by simp [setAt, Texture.Unlock, Texture.Lock],
      by simp [setAt, Texture.Unlock, Texture.Lock], fun y => ?_⟩
    by_cases hy : y = x
    · exact Or.inl hy
    · exact Or.inr (by simp [setAt, hy])
  rcases CopyPixels_done_cases t b mem copyRect stride bufferSize buffer hr mem' h with
    ⟨hb, -, hm⟩ | ⟨-, -, hm, hL⟩ | ⟨d, l, m1, n, -, hL, -, hrest⟩
  · subst hm
    exact ⟨0, rfl, rfl, fun y => Or.inr rfl, Or.inl ⟨Or.inl hb, rfl⟩⟩
  · subst hm
    exact ⟨0, rfl, rfl, fun y => Or.inr rfl, Or.inl ⟨Or.inr hL, rfl⟩⟩
  · obtain ⟨hl, h1⟩ := Lock_done_texture t b mem copyRect 0 x l m1 hx hL
    rcases hrest with ⟨-, -, hm⟩ | ⟨-, err, m2, hcp, hm, -⟩
    · subst hm
      obtain ⟨k1, k2, k3⟩ := key l m1 m1 hl h1 rfl
      exact ⟨1, k1, k2, k3, Or.inr ⟨⟨l, m1, hL⟩, rfl⟩⟩
    · subst hm
      obtain ⟨k1, k2, k3⟩ := key l m1 m2 hl h1 (memcpy_s_frame _ _ _ _ _ _ _ hcp).1
      exact ⟨1, k1, k2, k3, Or.inr ⟨⟨l, m1, hL⟩, rfl⟩⟩

/-- The texture-backed bitmap of width 4 and height 2 over texture 1 and a destination
of 32 bytes: `S_OK`, one `Lock` and one `Unlock`. -/
theorem CopyPixels_lock_unlock_balance_witness :
    ∃ mem', CGIWICBitmap.CopyPixels Target.x86 (CGIWICBitmap.mkTexture (some 1) 1 2 4 0)
        sampleMem (some 8) 16 32 (some 6) = .done (.S_OK, mem') ∧
      (mem'.textures 1).locks = 1 ∧ (mem'.textures 1).unlocks = 1 ∧
      ∃ k, (mem'.textures 1).locks = (sampleMem.textures 1).locks + k ∧
        (mem'.textures 1).unlocks = (sampleMem.textures 1).unlocks + k ∧
        (∀ y, y = 1 ∨ mem'.textures y = sampleMem.textures y) ∧
        (((some 6 = (none : Ptr) ∨
            CGIWICBitmap.Lock Target.x86 (CGIWICBitmap.mkTexture (some 1) 1 2 4 0) sampleMem
              (some 8) 0 true = .done (.S_OK, none, sampleMem)) ∧ k = 0) ∨
          ((∃ l m1, CGIWICBitmap.Lock Target.x86 (CGIWICBitmap.mkTexture (some 1) 1 2 4 0)
              sampleMem (some 8) 0 true = .done (.S_OK, some l, m1)) ∧ k = 1)) :=
  ⟨_, rfl, rfl, rfl,
    CopyPixels_lock_unlock_balance Target.x86 (CGIWICBitmap.mkTexture (some 1) 1 2 4 0)
      sampleMem (some 8) 16 32 (some 6) .S_OK _ 1 rfl rfl⟩

/-! ## C17: no `E_UNEXPECTED` from a buffer-backed bitmap -/

/-- C17: for every buffer-backed bitmap (made by the buffer constructor, after any
sequence of operations) and every argument combination, `CopyPixels` never returns
`E_UNEXPECTED`: a status it returns is `S_OK` unless the destination is null
(`E_POINTER`), `Lock` rejects the region (the status of `Lock`), or the source size
exceeds `bufferSize` (`E_INVALIDARG`). -/
theorem CopyPixels_buffer_never_unexpected (t : Target) (properties : GUID → Option Nat)
    (mem : Memory) (data : Ptr) (pixelFormat : GUID) (height width : Nat)
    (b : CGIWICBitmap) (mem1 : Memory)
    (hc : CGIWICBitmap.mkBuffer t properties mem data pixelFormat height width = .done (b, mem1))
    (ops : List Op) (b' : CGIWICBitmap) (mem2 : Memory)
    (hrun : run t ops (b, mem1) = .done (b', mem2))
    (copyRect : Ptr) (stride bufferSize : Nat) (buffer : Ptr) (hr : HRESULT) (mem' : Memory)
    (h : CGIWICBitmap.CopyPixels t b' mem2 copyRect stride bufferSize buffer = .done (hr, mem')) :
    hr ≠ .E_UNEXPECTED ∧
      (hr = .S_OK ∨ (hr = .E_POINTER ∧ buffer = none) ∨
        (hr.failed = true ∧
          CGIWICBitmap.Lock t b' mem2 copyRect 0 true = .done (hr, none, mem2)) ∨
        (hr = .E_INVALIDARG ∧ ∃ l m1 n,
          CGIWICBitmap.Lock t b' mem2 copyRect 0 true = .done (.S_OK, some l, m1) ∧
          l.GetDataPointer t m1 true true = .done (.S_OK, some (n, l.m_dataBuffer)) ∧
          bufferSize < n)) := by
  obtain ⟨hx, -, h3, h4⟩ := mkBuffer_storage _ _ _ _ _ _ _ _ _ hc
  obtain ⟨x, y, e⟩ := run_bitmap t ops b mem1 b' mem2 hrun
  have hx' : b'.m_texture = none := by rw [e]; exact hx
  have hd : ∃ a, b'.m_dataBuffer = some a := by
    have : b'.m_dataBuffer = b.m_dataBuffer := by rw [e]
    rw [this]
    cases data with
    | none => exact ⟨_, (h3 rfl).1⟩
    | some a => exact ⟨a, (h4 (by simp)).1⟩
  rcases CopyPixels_done_cases t b' mem2 copyRect stride bufferSize buffer hr mem' h with
    ⟨hb, hs, -⟩ | ⟨-, hf, -, hL⟩ | ⟨d, l, m1, n, -, hL, hg, hrest⟩
  · subst hs
    exact ⟨by simp, Or.inr (Or.inl ⟨rfl, hb⟩)⟩
  · exact ⟨Lock_done_status t b' mem2 copyRect 0 true _ _ _ hL, Or.inr (Or.inr (Or.inl ⟨hf, hL⟩))⟩
  · rcases hrest with ⟨hlt, hs, -⟩ | ⟨hle, err, m2, hcp, -, ⟨herr, -⟩ | ⟨-, hs⟩⟩
    · subst hs
      exact ⟨by simp, Or.inr (Or.inr (Or.inr ⟨rfl, l, m1, n, hL, hg, hlt⟩))⟩
    · exfalso
      obtain ⟨old, -, hsrc, -⟩ := memcpy_s_failure _ _ _ _ _ _ _ hcp herr (by omega)
      obtain ⟨-, hbuf, -⟩ := Lock_done_buffer_lock t b' mem2 copyRect 0 true _ l m1 hx' hL
      obtain ⟨a, ha⟩ := hd
      rw [hbuf, ha] at hsrc
      cases hsrc
    · subst hs
      exact ⟨by simp, Or.inl rfl⟩

/-- The bitmap of width 4 and height 2 with the caller's full rectangle and a
destination of 32 bytes: the status is `S_OK`. -/
theorem CopyPixels_buffer_never_unexpected_witness :
    ∃ mem', CGIWICBitmap.CopyPixels Target.x86 sampleBitmap sampleMem (some 8) 16 32 (some 6)
        = .done (.S_OK, mem') ∧ HRESULT.S_OK ≠ HRESULT.E_UNEXPECTED :=
  ⟨_, rfl, (CopyPixels_buffer_never_unexpected Target.x86 sampleProps sampleMem (some 5) 1 2 4
    sampleBitmap sampleMem rfl [] sampleBitmap sampleMem rfl (some 8) 16 32 (some 6) .S_OK _
    rfl).1⟩

/-! ## C18: the data size and the allocation -/

/-- Conversion to `UINT` of a product depends on the first factor only through its
conversion to `UINT`. -/
theorem toU32_mul (x : Int) (n : Nat) : toU32 (x * n) = (toU32 x * n) % 4294967296 := by
  unfold toU32
  apply Int.ofNat.inj
  show (((x * n) % 4294967296).toNat : Int) = (((x % 4294967296).toNat * n % 4294967296 : Nat) : Int)
  rw [Int.toNat_of_nonneg (Int.emod_nonneg _ (by norm_num))]
  push_cast
  rw [Int.toNat_of_nonneg (Int.emod_nonneg _ (by norm_num))]
  conv_rhs => rw [Int.mul_emod, Int.emod_emod_of_dvd _ (dvd_refl _), ← Int.mul_emod]

/-- A successful `Lock` of a bitmap without texture for a rectangle of the caller: the
rectangle is alive and has exactly the dimensions of the bitmap (as `UINT`), the
memory is as before and the lock records the members of the bitmap. -/
theorem Lock_buffer_region (t : Target) (b : CGIWICBitmap) (mem : Memory) (a flags : Nat)
    (l : CGIWICBitmapLock) (mem1 : Memory) (hx : b.m_texture = none)
    (h : CGIWICBitmap.Lock t b mem (some a) flags true = .done (.S_OK, some l, mem1)) :
    ∃ r, mem.rects a = some r ∧ toU32 r.Height = b.m_height ∧ toU32 r.Width = b.m_width ∧
      mem1 = mem ∧
      l = CGIWICBitmapLock.mkBuffer b.m_dataBuffer (some a) b.m_bytesPerRow b.m_pixelFormat := by
  unfold CGIWICBitmap.Lock at h
  simp only [CGIWICBitmap.makeLock, hx, Bool.not_true, Bool.false_eq_true, if_false] at h
  cases hr : mem.rects a with
  | none => simp only [hr] at h; cases h
  | some r =>
    simp only [hr] at h
    split at h
    · cases h
    · rename_i h1
      split at h
      · cases h
      · rename_i h2
        cases h
        exact ⟨r, rfl, by omega, by omega, rfl, rfl⟩

/-- For a buffer-backed bitmap that allocated its own storage and a lock obtained for
a rectangle supplied by the caller, the data size that `GetDataPointer` reports is
at most the number of bytes allocated at construction. -/
theorem GetDataPointer_size_le_allocation (t : Target) (ht : t.ok)
    (properties : GUID → Option Nat) (mem : Memory) (pixelFormat : GUID) (height width : Nat)
    (b : CGIWICBitmap) (mem1 : Memory)
    (hc : CGIWICBitmap.mkBuffer t properties mem none pixelFormat height width = .done (b, mem1))
    (mem2 : Memory) (a flags : Nat) (l : CGIWICBitmapLock) (mem3 : Memory)
    (hL : CGIWICBitmap.Lock t b mem2 (some a) flags true = .done (.S_OK, some l, mem3))
    (hr : HRESULT) (n : Nat) (p : Ptr)
    (hg : l.GetDataPointer t mem3 true true = .done (hr, some (n, p))) :
    n ≤ (height * b.m_bytesPerRow) % 2 ^ t.sizeBits ∧
      mem1.bytes mem.heapTop
        = some ((List.range ((height * b.m_bytesPerRow) % 2 ^ t.sizeBits)).map mem.junk) := by
  obtain ⟨hx, -, h3, -⟩ := mkBuffer_storage _ _ _ _ _ _ _ _ _ hc
  obtain ⟨bpp, -, -, hh, -, -, -⟩ := mkBuffer_done _ _ _ _ _ _ _ _ _ hc
  obtain ⟨-, e2, -⟩ := h3 rfl
  refine ⟨?_, by rw [e2]; simp [setAt]⟩
  obtain ⟨r, hrect, hH, -, hm, hl⟩ := Lock_buffer_region t b mem2 a flags l mem3 hx hL
  subst hm
  have hlr : l.m_locked_rect = some a := by rw [hl]; rfl
  have hbpr : l.m_bytesPerRow = b.m_bytesPerRow := by rw [hl]; rfl
  have hsz := size_product_eq t (le_trans ht.1 ht.2) r.Height l.m_bytesPerRow
  simp only [CGIWICBitmapLock.GetDataPointer, hlr, hrect, hsz, Bool.not_true,
    Bool.false_eq_true, if_false] at hg
  cases hg
  rw [toU32_mul, hH, hbpr, hh]
  have hd := pow32_dvd _ (le_trans ht.1 ht.2)
  rw [← Nat.mod_mod_of_dvd (height * b.m_bytesPerRow) hd]
  exact Nat.mod_le _ _

/-- C18 at its failing input.  The buffer-backed bitmap of width 4 and height 2 that
allocated its own 32 bytes: for the lock of `Lock` with the region omitted,
`GetDataPointer` reports no size at all, and `CopyPixels` with a null `copyRect` is
undefined: both read `Height` through the pointer to the expired rectangle of `Lock`.
With the full rectangle supplied by the caller the lock reports the size 32, the
number of bytes allocated. -/
theorem lock_size_null_region_undefined :
    CGIWICBitmap.mkBuffer Target.x86 sampleProps sampleMem none 1 2 4
        = .done (sampleOwnedBitmap, sampleOwnedMem) ∧
      (sampleOwnedMem.bytes 2000).map List.length = some 32 ∧
      (∃ l mem1, CGIWICBitmap.Lock Target.x86 sampleOwnedBitmap sampleOwnedMem none 0 true
          = .done (.S_OK, some l, mem1) ∧
        l.GetDataPointer Target.x86 mem1 true true = .undefined) ∧
      CGIWICBitmap.CopyPixels Target.x86 sampleOwnedBitmap sampleOwnedMem none 16 32 (some 6)
        = .undefined ∧
      ∃ l, CGIWICBitmap.Lock Target.x86 sampleOwnedBitmap sampleOwnedMem (some 8) 0 true
          = .done (.S_OK, some l, sampleOwnedMem) ∧
        l.GetDataPointer Target.x86 sampleOwnedMem true true
          = .done (.S_OK, some (32, some 2000)) :=
  ⟨rfl, rfl, ⟨_, _, rfl, rfl⟩, rfl, _, rfl, rfl⟩

/-! ## C19: the frame of `CopyPixels` -/

/-- `CopyPixels` of a bitmap without texture, for a rectangle of the caller that `Lock`
accepts and a non-null destination: the size check and the copy primitive. -/
theorem CopyPixels_buffer_eq (t : Target) (b : CGIWICBitmap) (mem : Memory) (a : Nat)
    (r : WICRect) (stride bufferSize d : Nat) (hx : b.m_texture = none)
    (hr : mem.rects a = some r)
    (h1 : ¬ (r.X ≠ 0 ∨ r.Y ≠ 0 ∨ toU32 r.Height < b.m_height ∨ toU32 r.Width < b.m_width))
    (h2 : ¬ (toU32 r.Width > b.m_width ∨ toU32 r.Height > b.m_height)) :
    CGIWICBitmap.CopyPixels t b mem (some a) stride bufferSize (some d) =
      if (toSize t r.Height * b.m_bytesPerRow) % 2 ^ t.sizeBits % 4294967296 > bufferSize then
        .done (.E_INVALIDARG, mem)
      else
        match memcpy_s mem (some d) bufferSize b.m_dataBuffer
            ((toSize t r.Height * b.m_bytesPerRow) % 2 ^ t.sizeBits % 4294967296) with
        | .undefined => .undefined
        | .failFast => .failFast
        | .done (err, mem2) =>
          if err ≠ 0 then .done (.E_UNEXPECTED, mem2) else .done (.S_OK, mem2) := by
  simp only [CGIWICBitmap.CopyPixels, CGIWICBitmap.Lock, CGIWICBitmap.makeLock, hx, hr, h1, h2,
    Bool.not_true, Bool.false_eq_true, if_false, HRESULT.failed,
    CGIWICBitmapLock.GetDataPointer, CGIWICBitmapLock.mkBuffer, CGIWICBitmapLock.destroy]

/-- When `memcpy_s` reports success, either nothing was to be copied and the memory is
as before, or the first `count` bytes of the destination were replaced by those of a
different, live source array that is long enough. -/
theorem memcpy_s_success (mem : Memory) (d destSize : Nat) (src : Ptr) (count : Nat)
    (mem2 : Memory) (h : memcpy_s mem (some d) destSize src count = .done (0, mem2)) :
    (count = 0 ∧ mem2 = mem) ∨
    (∃ s source old, src = some s ∧ mem.bytes d = some old ∧ mem.bytes s = some source ∧
      s ≠ d ∧ count ≤ source.length ∧ count ≤ old.length ∧ count ≤ destSize ∧
      mem2 = { mem with bytes := setAt mem.bytes d (some (source.take count ++ old.drop count)) }) := by
  unfold memcpy_s at h
  by_cases hc0 : count = 0
  · simp only [hc0, if_true] at h
    cases h; exact Or.inl ⟨hc0, rfl⟩
  · simp only [hc0, if_false] at h
    cases hold : mem.bytes d with
    | none => simp only [hold] at h; cases h
    | some old =>
      simp only [hold] at h
      by_cases hf : src = none ∨ destSize < count
      · simp only [hf, if_true] at h
        split at h
        · cases h
        · split at h
          · simp [EINVAL] at h
          · simp [ERANGE] at h
      · simp only [hf, if_false] at h
        cases src with
        | none => exact absurd (Or.inl rfl) hf
        | some s =>
          simp only at h
          cases hsrc : mem.bytes s with
          | none => simp only [hsrc] at h; cases h
          | some source =>
            simp only [hsrc] at h
            by_cases hbad : s = d ∨ source.length < count ∨ old.length < count
            · simp only [hbad, if_true] at h; cases h
            · simp only [hbad, if_false] at h
              cases h
              exact Or.inr ⟨s, source, old, rfl, rfl, hsrc, by tauto, by omega, by omega,
                by omega, rfl⟩

/-- The copy primitive on a live destination and a different live source that are
both long enough. -/
theorem memcpy_s_copy (mem : Memory) (d destSize s count : Nat) (source old : List Nat)
    (hold : mem.bytes d = some old) (hsrc : mem.bytes s = some source) (hne : s ≠ d)
    (h1 : count ≤ source.length) (h2 : count ≤ old.length) (h3 : count ≤ destSize)
    (h0 : count ≠ 0) :
    memcpy_s mem (some d) destSize (some s) count =
      .done (0, { mem with
                  bytes := setAt mem.bytes d (some (source.take count ++ old.drop count)) }) := by
  have hf : ¬ ((some s : Ptr) = none ∨ destSize < count) := by simp; omega
  have hbad : ¬ (s = d ∨ source.length < count ∨ old.length < count) := by omega
  simp only [memcpy_s, h0, if_false, hold, hf, hsrc, hbad]

/-- Storing into an array what it already holds changes nothing. -/
theorem setAt_bytes_self (mem : Memory) (d : Nat) (v : List Nat) (h : mem.bytes d = some v) :
    { mem with bytes := setAt mem.bytes d (some v) } = mem := by
  cases mem with
  | mk rects stackTop bytes heapTop junk textures freed =>
    simp only [Memory.mk.injEq, true_and, and_true]
    funext i
    simp only [setAt]
    split
    · rename_i hi; subst hi; exact h.symm
    · rfl

/-- C19: for every buffer-backed bitmap and every successful `CopyPixels` call, with
`n` the source size that the lock reports: the bitmap is the same after the call
(`step` returns it unchanged), the contents of its pixel buffer and of every array
other than the destination are unchanged, the destination keeps its length and its
bytes from offset `n` on, rectangles, textures and freed arrays are as before, and a
second identical call succeeds and leaves the memory, the destination included, as
the first call left it. -/
theorem CopyPixels_frame (t : Target) (b : CGIWICBitmap) (mem : Memory) (copyRect : Ptr)
    (stride bufferSize : Nat) (buffer : Ptr) (mem' : Memory) (hx : b.m_texture = none)
    (h : CGIWICBitmap.CopyPixels t b mem copyRect stride bufferSize buffer = .done (.S_OK, mem')) :
    ∃ d a r n, buffer = some d ∧ copyRect = some a ∧ mem.rects a = some r ∧
      n = (toSize t r.Height * b.m_bytesPerRow) % 2 ^ t.sizeBits % 4294967296 ∧
      n ≤ bufferSize ∧
      step t (.CopyPixels copyRect stride bufferSize buffer) (b, mem) = .done (b, mem') ∧
      (∀ p, b.m_dataBuffer = some p → mem'.bytes p = mem.bytes p) ∧
      (∀ p, p = d ∨ mem'.bytes p = mem.bytes p) ∧
      (mem'.bytes d).map (List.drop n) = (mem.bytes d).map (List.drop n) ∧
      (mem'.bytes d).map List.length = (mem.bytes d).map List.length ∧
      mem'.rects = mem.rects ∧ mem'.textures = mem.textures ∧ mem'.freed = mem.freed ∧
      CGIWICBitmap.CopyPixels t b mem' copyRect stride bufferSize buffer = .done (.S_OK, mem') := by
  have hstep : step t (.CopyPixels copyRect stride bufferSize buffer) (b, mem) = .done (b, mem') := by
    simp only [step, h]
  cases buffer with
  | none => simp [CGIWICBitmap.CopyPixels] at h
  | some d =>
  cases copyRect with
  | none => rw [CopyPixels_null_undefined] at h; cases h
  | some a =>
  cases hr : mem.rects a with
  | none => simp [CGIWICBitmap.CopyPixels, CGIWICBitmap.Lock, hr] at h
  | some r =>
  by_cases h1 : r.X ≠ 0 ∨ r.Y ≠ 0 ∨ toU32 r.Height < b.m_height ∨ toU32 r.Width < b.m_width
  · simp [CGIWICBitmap.CopyPixels, CGIWICBitmap.Lock, hr, h1, HRESULT.failed] at h
  by_cases h2 : toU32 r.Width > b.m_width ∨ toU32 r.Height > b.m_height
  · simp [CGIWICBitmap.CopyPixels, CGIWICBitmap.Lock, hr, h1, h2, HRESULT.failed] at h
  have hform := CopyPixels_buffer_eq t b mem a r stride bufferSize d hx hr h1 h2
  rw [hform] at h
  by_cases hgt : (toSize t r.Height * b.m_bytesPerRow) % 2 ^ t.sizeBits % 4294967296 > bufferSize
  · simp only [hgt, if_true] at h; cases h
  simp only [hgt, if_false] at h
  refine ⟨d, a, r, _, rfl, rfl, hr, rfl, by omega, hstep, ?_⟩
  split at h
  · cases h
  · cases h
  · rename_i err m2 hcp
    split at h
    · cases h
    · rename_i herr
      have herr0 : err = 0 := by simpa using herr
      subst herr0
      cases h
      rcases memcpy_s_success _ _ _ _ _ _ hcp with ⟨hn0, hm⟩ | ⟨s, source, old, hs, hold, hsrc, hne, hl1, hl2, hl3, hm⟩
      · subst hm
        refine ⟨fun _ _ => rfl, fun _ => Or.inr rfl, rfl, rfl, rfl, rfl, rfl, ?_⟩
        rw [hform]
        simp only [hgt, if_false, hcp]
        simp
      · have hb : mem'.bytes = setAt mem.bytes d (some (source.take
            ((toSize t r.Height * b.m_bytesPerRow) % 2 ^ t.sizeBits % 4294967296) ++ old.drop
            ((toSize t r.Height * b.m_bytesPerRow) % 2 ^ t.sizeBits % 4294967296))) := by
          rw [hm]
        have hnew : mem'.bytes d = some (source.take
            ((toSize t r.Height * b.m_bytesPerRow) % 2 ^ t.sizeBits % 4294967296) ++ old.drop
            ((toSize t r.Height * b.m_bytesPerRow) % 2 ^ t.sizeBits % 4294967296)) := by
          rw [hb]; simp [setAt]
        have hsrc' : mem'.bytes s = some source := by
          rw [hb]; simp [setAt, hne, hsrc]
        have hr' : mem'.rects a = some r := by rw [hm]; exact hr
        refine ⟨?_, ?_, ?_, ?_, by rw [hm], by rw [hm], by rw [hm], ?_⟩
        · intro p hp
          rw [hs] at hp; cases hp
          rw [hsrc', hsrc]
        · intro p
          by_cases hp : p = d
          · exact Or.inl hp
          · exact Or.inr (by rw [hb]; simp [setAt, hp])
        · simp only [hnew, hold, Option.map_some']
          congr 1
          rw [List.drop_append_of_le_length (by simp; omega)]
          simp [List.drop_eq_nil_of_le, hl1]
        · simp only [hnew, hold, Option.map_some']
          congr 1
          simp; omega
        · rw [CopyPixels_buffer_eq t b mem' a r stride bufferSize d hx hr' h1 h2]
          simp only [hgt, if_false]
          by_cases hn0 : (toSize t r.Height * b.m_bytesPerRow) % 2 ^ t.sizeBits % 4294967296 = 0
          · simp [memcpy_s, hn0]
          · rw [hs, memcpy_s_copy mem' d bufferSize s _ source _ hnew hsrc' hne hl1
              (by simp; omega) hl3 hn0]
            simp only [ne_eq, not_true_eq_false, if_false]
            rw [List.drop_append_of_le_length (by simp; omega)]
            have : List.drop ((toSize t r.Height * b.m_bytesPerRow) % 2 ^ t.sizeBits % 4294967296)
                (List.take ((toSize t r.Height * b.m_bytesPerRow) % 2 ^ t.sizeBits % 4294967296)
                  source) = [] := by
              simp [List.drop_eq_nil_of_le, hl1]
            rw [this, List.nil_append]
            rw [setAt_bytes_self mem' d _ hnew]

/-- The bitmap of width 4 and height 2 with the caller's full rectangle and a
destination of 32 bytes: the second identical call returns `S_OK` and the same
memory. -/
theorem CopyPixels_frame_witness :
    ∃ mem', CGIWICBitmap.CopyPixels Target.x86 sampleBitmap sampleMem (some 8) 16 32 (some 6)
        = .done (.S_OK, mem') ∧
      mem'.bytes 6 = some (List.range 32) ∧ mem'.bytes 5 = some (List.range 32) ∧
      CGIWICBitmap.CopyPixels Target.x86 sampleBitmap mem' (some 8) 16 32 (some 6)
        = .done (.S_OK, mem') :=
  ⟨_, rfl, rfl, rfl, by
    obtain ⟨_, _, _, _, -, -, -, -, -, -, -, -, -, -, -, -, -, h⟩ :=
      CopyPixels_frame Target.x86 sampleBitmap sampleMem (some 8) 16 32 (some 6) _ rfl rfl
    exact h⟩

end WinObjC
